import Mathlib

/-!
# Smart-traffic dashboard controller (`static/app.js`)

A shallow embedding of the browser controller: the module-level variables and the
document fields the controller reads and writes become one record `AppState`,
every function of the script becomes a function on that record, and an `async`
function becomes its synchronous prefix (which may issue one request) together
with the continuations that run when the response arrives or fails.

Conventions of the embedding.
* A Number is finite and is represented by its exact value, a rational. The
  arithmetic of `updateStatistics` and of the route summary is that of the
  language: the exact result rounded to the nearest Number (`toDouble`), valid
  while results stay below `2^1024` in absolute value. The marker radius
  `8 + severity * 2` is computed exactly.
* A Leaflet layer is an object with an identity: `Layer.id` is its stamp, a layer
  created by `L.marker`, `L.circleMarker` or `L.polyline` takes the next unused
  stamp, and `map.removeLayer` removes by stamp.
* Only overlay layers are tracked on the map; base tile layers, popups' contents
  and the viewport (centre, zoom) are left out.
* `alert` appends to the log `AppState.alerts`; a request issued by a function is
  returned next to the new state.
-/

namespace SmartTraffic

/-! ## Data model -/

/-- A pair `{lat, lon}` of a route's `coordinates`. -/
structure LatLng where
  lat : Rat
  lon : Rat
deriving DecidableEq, Repr

/-- The three `L.divIcon`s the script builds for `L.marker`: the green dot of the
start marker (`background: #00ff00`), the red dot of the end marker
(`background: #ff0000`) and the pin of the search marker (`search-marker`). -/
inductive Icon where
  | startDot
  | endDot
  | searchPin
deriving DecidableEq, Repr

/-- What a layer draws. -/
inductive Shape where
  /-- `L.marker([lat, lon], {icon})` -/
  | marker (lat lon : Rat) (icon : Icon)
  /-- `L.circleMarker([lat, lon], {radius, fillColor, color: 'white', weight: 2, opacity: 1, fillOpacity})` -/
  | circleMarker (lat lon : Rat) (radius : Rat) (fillColor : String) (fillOpacity : Rat)
  /-- `L.polyline(coordinates, {color, weight: 6, opacity: 0.8, lineJoin: 'round'})` -/
  | polyline (coordinates : List LatLng) (color : String)
deriving DecidableEq, Repr

/-- A Leaflet layer object: its stamp and what it draws. -/
structure Layer where
  id : Nat
  shape : Shape
deriving DecidableEq, Repr

/-- A city of `cities`. -/
structure City where
  name : String
  latitude : Rat
  longitude : Rat
  bbox : String
deriving DecidableEq, Repr

/-- An incident as the script reads it (`latitude`, `longitude`, `severity`,
`delay`, `description`). -/
structure Incident where
  latitude : Rat
  longitude : Rat
  severity : Rat
  delay : Rat
  description : String
deriving DecidableEq, Repr

/-- An element of `route.routeTrafficPoints`. -/
structure TrafficPoint where
  latitude : Rat
  longitude : Rat
  congestion : Rat
deriving DecidableEq, Repr

/-- A numeric field of a JSON object that may also be absent or hold `null`. -/
inductive JsonNumber where
  | absent
  | null
  | number (value : Rat)
deriving DecidableEq, Repr

/-- A route as returned by the route endpoint. A field that may be absent (or
`null`) is an `Option`; `recommendationReason` is the text the templates print for
that field. -/
structure Route where
  coordinates : Option (List LatLng)
  distance : Rat
  duration : Rat
  recommended : Bool
  recommendationReason : String
  trafficLevel : Option String
  averageCongestion : JsonNumber
  routeTrafficPoints : Option (List TrafficPoint)
deriving DecidableEq, Repr

/-- A child of the `chatMessages` element: a message bubble appended by
`addChatMessage`, or the element with id `typingIndicator`. -/
inductive ChatEntry where
  | message (role : String) (text : String)
  | typing
deriving DecidableEq, Repr

/-- The module variables of the script together with the document fields it uses. -/
structure AppState where
  /-- next unused layer stamp -/
  nextId : Nat
  /-- overlay layers currently on the map, oldest first -/
  mapLayers : List Layer
  currentCity : Option City
  cities : List City
  incidentMarkers : List Layer
  congestionMarkers : List Layer
  routeLayer : Option Layer
  startMarker : Option Layer
  endMarker : Option Layer
  searchMarker : Option Layer
  sessionId : String
  currentIncidents : List Incident
  /-- value of the input `startLocation` -/
  startLocation : String
  /-- value of the input `endLocation` -/
  endLocation : String
  /-- value of the input `locationSearch` -/
  locationSearch : String
  /-- state of the checkbox `avoidTraffic` -/
  avoidTraffic : Bool
  /-- value of the input `chatInput` -/
  chatInput : String
  /-- `innerHTML` of `routeInfo` -/
  routeInfo : String
  /-- `textContent` of `incidentCount` -/
  incidentCount : String
  /-- `textContent` of `avgSpeed` -/
  avgSpeed : String
  /-- `textContent` of `congestionLevel` -/
  congestionLevel : String
  /-- children of `chatMessages`, in document order -/
  chatMessages : List ChatEntry
  /-- texts passed to `alert`, oldest first -/
  alerts : List String
deriving DecidableEq, Repr

/-! ## Library operations -/

/-- `map.removeLayer(layer)`: the layer with that stamp leaves the map. -/
def removeLayer (layers : List Layer) (layer : Layer) : List Layer :=
  layers.filter (fun l => l.id != layer.id)

/-- `if (slot) map.removeLayer(slot)` for a variable holding a layer or `null`. -/
def removeSlot (layers : List Layer) (slot : Option Layer) : List Layer :=
  match slot with
  | some layer => removeLayer layers layer
  | none => layers

/-- `markers.forEach(marker => map.removeLayer(marker))`. -/
def removeAll (layers : List Layer) (markers : List Layer) : List Layer :=
  markers.foldl removeLayer layers

/-- `Number.prototype.toFixed(f)` on a finite number below `10^21` in absolute
value (where JavaScript uses fixed notation): the sign, then the integer `n`
nearest to `|x| * 10^f` (the larger one on a tie, so `n` is the floor of
`|x| * 10^f + 1/2`, computed here on numerator and denominator) written with at
least `f + 1` digits and a point before the last `f`. -/
def toFixed (x : Rat) (f : Nat) : String :=
  let n : Nat := (2 * x.num.natAbs * 10 ^ f + x.den) / (2 * x.den)
  let m := Nat.toDigits 10 n
  let m := List.replicate (f + 1 - m.length) '0' ++ m
  let k := m.length - f
  String.mk ((if x.num < 0 then ['-'] else []) ++ m.take k
    ++ (if f = 0 then [] else '.' :: m.drop k))

/-- The text stored in a location input for a coordinate pair: the template
`lat.toFixed(5) + ", " + lon.toFixed(5)`. -/
def coordText (lat lon : Rat) : String :=
  toFixed lat 5 ++ ", " ++ toFixed lon 5

/-! ## LocationPicker -/

/-- The handler of the map `click` event at `e.latlng = (lat, lon)`. -/
def mapClick (lat lon : Rat) (s : AppState) : AppState :=
  if s.startLocation = "" then
    { s with
      startLocation := coordText lat lon
      mapLayers := removeSlot s.mapLayers s.startMarker ++ [⟨s.nextId, .marker lat lon .startDot⟩]
      startMarker := some ⟨s.nextId, .marker lat lon .startDot⟩
      nextId := s.nextId + 1 }
  else if s.endLocation = "" then
    { s with
      endLocation := coordText lat lon
      mapLayers := removeSlot s.mapLayers s.endMarker ++ [⟨s.nextId, .marker lat lon .endDot⟩]
      endMarker := some ⟨s.nextId, .marker lat lon .endDot⟩
      nextId := s.nextId + 1 }
  else s

/-- `setAsStart(lat, lon)`. -/
def setAsStart (lat lon : Rat) (s : AppState) : AppState :=
  { s with
    startLocation := coordText lat lon
    mapLayers := removeSlot s.mapLayers s.startMarker ++ [⟨s.nextId, .marker lat lon .startDot⟩]
    startMarker := some ⟨s.nextId, .marker lat lon .startDot⟩
    nextId := s.nextId + 1 }

/-- `setAsEnd(lat, lon)`. -/
def setAsEnd (lat lon : Rat) (s : AppState) : AppState :=
  { s with
    endLocation := coordText lat lon
    mapLayers := removeSlot s.mapLayers s.endMarker ++ [⟨s.nextId, .marker lat lon .endDot⟩]
    endMarker := some ⟨s.nextId, .marker lat lon .endDot⟩
    nextId := s.nextId + 1 }

/-- `clearCongestionMarkers()`. -/
def clearCongestionMarkers (s : AppState) : AppState :=
  { s with
    mapLayers := removeAll s.mapLayers s.congestionMarkers
    congestionMarkers := [] }

/-- `clearRoute()`. -/
def clearRoute (s : AppState) : AppState :=
  let s := { s with mapLayers := removeSlot s.mapLayers s.routeLayer, routeLayer := none }
  let s := { s with mapLayers := removeSlot s.mapLayers s.startMarker, startMarker := none }
  let s := { s with mapLayers := removeSlot s.mapLayers s.endMarker, endMarker := none }
  let s := clearCongestionMarkers s
  { s with startLocation := "", endLocation := "", routeInfo := "" }

/-- The text of the greeting `initMap` appends to the chat. -/
def welcomeMessage : String :=
  "Hello! I'm your AI traffic assistant. I can help you with:\n• Current traffic conditions\n• Route planning\n• Incident updates\n• Best travel times\n\nJust ask me anything!"

/-- The state once `window.onload` has run `initMap`: no city, no overlay, empty
inputs, and the greeting as the only chat entry. `sessionId` is the token
`generateSessionId()` produced. -/
def initialState (sessionId : String) : AppState where
  nextId := 0
  mapLayers := []
  currentCity := none
  cities := []
  incidentMarkers := []
  congestionMarkers := []
  routeLayer := none
  startMarker := none
  endMarker := none
  searchMarker := none
  sessionId := sessionId
  currentIncidents := []
  startLocation := ""
  endLocation := ""
  locationSearch := ""
  avoidTraffic := false
  chatInput := ""
  routeInfo := ""
  incidentCount := ""
  avgSpeed := ""
  congestionLevel := ""
  chatMessages := [.message "ai" welcomeMessage]
  alerts := []

/-! ## Text operations of the language -/

/-- The code points `String.prototype.trim` and `parseFloat` strip: WhiteSpace
(TAB, VT, FF, SP, NBSP, ZWNBSP and the space separators) and LineTerminator
(LF, CR, LS, PS). -/
def isWhiteSpace (c : Char) : Bool :=
  [0x9, 0xA, 0xB, 0xC, 0xD, 0x20, 0xA0, 0x1680, 0x2028, 0x2029, 0x202F, 0x205F, 0x3000,
    0xFEFF].contains c.toNat
  || (0x2000 ≤ c.toNat && c.toNat ≤ 0x200A)

/-- Strip leading white space. -/
def trimStart (cs : List Char) : List Char :=
  cs.dropWhile isWhiteSpace

/-- `String.prototype.trim` on the characters of a string. -/
def trim (cs : List Char) : List Char :=
  ((trimStart cs).reverse.dropWhile isWhiteSpace).reverse

/-- `s.split(',')`: the pieces between commas; the empty string gives one empty piece. -/
def splitComma : List Char → List (List Char)
  | [] => [[]]
  | c :: cs =>
    if c = ',' then [] :: splitComma cs
    else
      match splitComma cs with
      | [] => [[c]]
      | piece :: pieces => (c :: piece) :: pieces

/-- A Number produced by `parseFloat`: `NaN`, or the value of the numeric literal
that was read (kept as the literal; it may denote an infinity). -/
inductive JSNumber where
  | nan
  | ofLiteral (numberString : List Char)
deriving DecidableEq, Repr

/-- `isNaN(x)` on a Number. -/
def isNaN : JSNumber → Bool
  | .nan => true
  | .ofLiteral _ => false

/-- Whether `cs` begins with `word`. -/
def startsWith (word : List Char) (cs : List Char) : Bool :=
  cs.take word.length == word

/-- The longest ExponentPart (`e` or `E`, an optional sign, at least one digit) that
`cs` begins with, or nothing. -/
def exponentPart (cs : List Char) : List Char :=
  match cs with
  | [] => []
  | e :: rest =>
    if e = 'e' ∨ e = 'E' then
      match rest with
      | '+' :: r =>
        if r.takeWhile Char.isDigit = [] then [] else e :: '+' :: r.takeWhile Char.isDigit
      | '-' :: r =>
        if r.takeWhile Char.isDigit = [] then [] else e :: '-' :: r.takeWhile Char.isDigit
      | r =>
        if r.takeWhile Char.isDigit = [] then [] else e :: r.takeWhile Char.isDigit
    else []

/-- The longest StrUnsignedDecimalLiteral that `cs` begins with: `Infinity`,
`digits . digits? exponent?`, `. digits exponent?` or `digits exponent?`. -/
def unsignedLiteral (cs : List Char) : Option (List Char) :=
  if startsWith "Infinity".toList cs then some "Infinity".toList
  else
    let intDigits := cs.takeWhile Char.isDigit
    match cs.drop intDigits.length with
    | '.' :: rest =>
      let fracDigits := rest.takeWhile Char.isDigit
      if intDigits = [] ∧ fracDigits = [] then none
      else some (intDigits ++ '.' :: fracDigits ++ exponentPart (rest.drop fracDigits.length))
    | rest =>
      if intDigits = [] then none else some (intDigits ++ exponentPart rest)

/-- `parseFloat(string)`: skip leading white space, read the longest prefix that is
a StrDecimalLiteral (an optional sign and an unsigned literal), `NaN` if there is
none. -/
def parseFloat (cs : List Char) : JSNumber :=
  match trimStart cs with
  | '+' :: rest =>
    match unsignedLiteral rest with
    | some lit => .ofLiteral ('+' :: lit)
    | none => .nan
  | '-' :: rest =>
    match unsignedLiteral rest with
    | some lit => .ofLiteral ('-' :: lit)
    | none => .nan
  | rest =>
    match unsignedLiteral rest with
    | some lit => .ofLiteral lit
    | none => .nan

/-- Decimal text of an integer, as string concatenation renders an integral Number
(below `10^21` in absolute value). -/
def intToString (n : Int) : String :=
  String.mk ((if n < 0 then ['-'] else []) ++ Nat.toDigits 10 n.natAbs)

/-- `Math.round`: the nearest integer, a tie going up. -/
def mathRound (x : Rat) : Int :=
  Rat.floor (x + 1 / 2)

/-! ## Arithmetic of the language -/

/-- With enough fuel, the number of halvings that bring `n` below 2. -/
def log2Fuel : Nat → Nat → Nat
  | 0, _ => 0
  | fuel + 1, n => if n < 2 then 0 else log2Fuel fuel (n / 2) + 1

/-- The exponent `k` with `2^k ≤ n < 2^(k+1)`, for positive `n`. -/
def natLog2 (n : Nat) : Nat :=
  log2Fuel n n

/-- The exponent `e` with `2^e ≤ n / d < 2^(e+1)`, for positive `n` and `d`. -/
def floorLog2 (n d : Nat) : Int :=
  if d * 2 ^ natLog2 n ≤ n * 2 ^ natLog2 d then (natLog2 n : Int) - natLog2 d
  else (natLog2 n : Int) - natLog2 d - 1

/-- The integer nearest to `n / d`, the even one on a tie. -/
def roundHalfEven (n d : Nat) : Nat :=
  if 2 * (n % d) < d then n / d
  else if d < 2 * (n % d) then n / d + 1
  else if n / d % 2 = 0 then n / d
  else n / d + 1

/-- The Number (IEEE 754 binary64) nearest to the real `x`, the one with an even
significand on a tie: `x` is rounded to a multiple of `2^u`, where `u` is 52 below
the binary exponent of `x` and at least `-1074`. The result is given by its exact
value; this is every operation's rounding as long as the result stays below
`2^1024` in absolute value (beyond that JavaScript gives an infinity). -/
def toDouble (x : Rat) : Rat :=
  if x.num = 0 then 0
  else if 0 ≤ max (floorLog2 x.num.natAbs x.den - 52) (-1074) then
    mkRat
      (Int.sign x.num *
        ((roundHalfEven x.num.natAbs
            (x.den * 2 ^ (max (floorLog2 x.num.natAbs x.den - 52) (-1074)).toNat)
          * 2 ^ (max (floorLog2 x.num.natAbs x.den - 52) (-1074)).toNat : Nat) : Int))
      1
  else
    mkRat
      (Int.sign x.num *
        ((roundHalfEven
            (x.num.natAbs * 2 ^ (-(max (floorLog2 x.num.natAbs x.den - 52) (-1074))).toNat)
            x.den : Nat) : Int))
      (2 ^ (-(max (floorLog2 x.num.natAbs x.den - 52) (-1074))).toNat)

/-- The sum `a + b` of two Numbers: the exact sum, rounded. -/
def jsAdd (a b : Rat) : Rat :=
  toDouble (mkRat (a.num * b.den + b.num * a.den) (a.den * b.den))

/-- The difference `a - b` of two Numbers: the exact difference, rounded. -/
def jsSub (a b : Rat) : Rat :=
  toDouble (mkRat (a.num * b.den - b.num * a.den) (a.den * b.den))

/-- The quotient `a / n` of a Number by a positive integer: the exact quotient,
rounded. -/
def jsDiv (a : Rat) (n : Nat) : Rat :=
  toDouble (mkRat a.num (a.den * n))

/-! ## Requests -/

/-- The answer of the geocode endpoint. -/
structure GeocodeResult where
  found : Bool
  latitude : Rat
  longitude : Rat
  displayName : String
deriving DecidableEq, Repr

/-- A call of `fetch`, with the values the script puts into the URL or the body. -/
inductive Request where
  /-- `GET /api/traffic/geocode?query=..&cityContext=..` -/
  | geocode (query : String) (cityContext : String)
  /-- `GET /api/traffic/route?startLat=..&startLon=..&endLat=..&endLon=..&avoidTraffic=..` -/
  | route (startLat startLon endLat endLon : JSNumber) (avoidTraffic : Bool)
  /-- `POST /api/traffic/chat` with `sessionId`, `message`, `city`, `incidents`
  (`flows` is always the empty list) -/
  | chat (sessionId : String) (message : String) (city : String) (incidents : List Incident)
deriving DecidableEq, Repr

/-! ## IncidentOverlay -/

/-- `clearIncidents()`. -/
def clearIncidents (s : AppState) : AppState :=
  { s with
    mapLayers := removeAll s.mapLayers s.incidentMarkers
    incidentMarkers := [] }

/-- The body of the `forEach` of `displayIncidents` for one incident: `severity` is
`incident.severity || 1` (a zero severity counts as 1). -/
def addIncidentMarker (s : AppState) (incident : Incident) : AppState :=
  let severity := if incident.severity = 0 then 1 else incident.severity
  let color :=
    if severity ≥ 3 then "#dc3545" else if severity ≥ 2 then "#ffc107" else "#28a745"
  let marker : Layer :=
    ⟨s.nextId, .circleMarker incident.latitude incident.longitude (8 + severity * 2) color (7 / 10)⟩
  { s with
    mapLayers := s.mapLayers ++ [marker]
    incidentMarkers := s.incidentMarkers ++ [marker]
    nextId := s.nextId + 1 }

/-- `displayIncidents(incidents)`. -/
def displayIncidents (incidents : List Incident) (s : AppState) : AppState :=
  incidents.foldl addIncidentMarker (clearIncidents s)

/-- `updateStatistics(incidents)`. The fields `delay` and `severity` of an incident
are read as Numbers (a value of the response that is not one is the Number the JSON
parser makes of it); the two `reduce` sums, the divisions by `incidents.length` and
the subtraction from 60 round as the language does. -/
def updateStatistics (incidents : List Incident) (s : AppState) : AppState :=
  let s := { s with incidentCount := intToString incidents.length }
  if incidents.length > 0 then
    let avgDelay :=
      jsDiv (incidents.foldl (fun sum i => jsAdd sum (toDouble i.delay)) 0) incidents.length
    let avgSeverity :=
      jsDiv (incidents.foldl (fun sum i => jsAdd sum (toDouble i.severity)) 0) incidents.length
    let congestion :=
      if avgSeverity ≥ 3 then "Heavy" else if avgSeverity ≥ 2 then "Moderate" else "Light"
    { s with
      avgSpeed := intToString (mathRound (jsSub 60 avgDelay)) ++ " km/h"
      congestionLevel := congestion }
  else
    { s with
      avgSpeed := "60 km/h"
      congestionLevel := "Free Flow" }

/-! ## ChatSession -/

/-- `addChatMessage(role, message)`. -/
def addChatMessage (role message : String) (s : AppState) : AppState :=
  { s with chatMessages := s.chatMessages ++ [.message role message] }

/-- The reply given when a message is sent before a city is chosen. -/
def selectCityMessage : String :=
  "Please select a city first so I can provide you with accurate traffic information."

/-- The reply given when the chat request fails. -/
def apologyMessage : String :=
  "Sorry, I'm having trouble connecting right now. Please try again."

/-- `sendChatMessage()` up to the `fetch`: the new state and the request issued, if
any. -/
def sendChatMessage (s : AppState) : AppState × Option Request :=
  let message := String.mk (trim s.chatInput.toList)
  if message = "" then (s, none)
  else
    match s.currentCity with
    | none => ({ addChatMessage "ai" selectCityMessage s with chatInput := "" }, none)
    | some city =>
      let s := { addChatMessage "user" message s with chatInput := "" }
      let s := { s with chatMessages := s.chatMessages ++ [.typing] }
      (s, some (.chat s.sessionId message city.name s.currentIncidents))

/-- `const typing = document.getElementById('typingIndicator'); if (typing)
typing.remove()`: the first element with that id leaves the document. -/
def removeTyping (s : AppState) : AppState :=
  { s with chatMessages := s.chatMessages.erase .typing }

/-- The `catch` block of `sendChatMessage`. -/
def sendChatMessageError (s : AppState) : AppState :=
  addChatMessage "ai" apologyMessage (removeTyping s)

/-- The rest of the `try` block of `sendChatMessage`, run when the body of the
response has been read as `result`: the typing placeholder is removed, then
`result.message` is appended. `result` is `some message` when the body is any JSON
value but `null`, `message` being the text `result.message` gives the bubble (the
empty text when there is no such field), and `none` when the body is `null`:
reading `result.message` then throws, the placeholder being gone already, and the
`catch` block runs. -/
def sendChatMessageResponse (result : Option String) (s : AppState) : AppState :=
  match result with
  | some message => addChatMessage "ai" message (removeTyping s)
  | none => sendChatMessageError (removeTyping s)

/-! ## RouteOverlay -/

/-- `getCongestionColor(congestion)`. -/
def getCongestionColor (congestion : Rat) : String :=
  if congestion ≥ 70 then "#dc3545"
  else if congestion ≥ 50 then "#ffc107"
  else if congestion ≥ 30 then "#ff9800"
  else "#4caf50"

/-- The body of the `forEach` over `route.routeTrafficPoints` for one point. -/
def addCongestionMarker (s : AppState) (point : TrafficPoint) : AppState :=
  if point.congestion > 20 then
    let marker : Layer :=
      ⟨s.nextId, .circleMarker point.latitude point.longitude 6
        (getCongestionColor point.congestion) (8 / 10)⟩
    { s with
      mapLayers := s.mapLayers ++ [marker]
      congestionMarkers := s.congestionMarkers ++ [marker]
      nextId := s.nextId + 1 }
  else s

/-- The test `route.averageCongestion && route.averageCongestion > 60`. -/
def heavyCongestion : JsonNumber → Bool
  | .number c => decide (toDouble c ≠ 0 ∧ toDouble c > 60)
  | .null => false
  | .absent => false

/-- The text `displayRoute` writes into `routeInfo` and the chat entry it adds, for
a route that has coordinates. The fields `distance`, `duration` and
`averageCongestion` are read as Numbers and the two divisions round as the language
does; `numberText` renders the Number `route.averageCongestion` inside a
template. -/
def routeSummary (numberText : Rat → String) (route : Route) (s : AppState) : AppState :=
  let distanceKm := toFixed (jsDiv (toDouble route.distance) 1000) 2
  let durationMin := intToString (mathRound (jsDiv (toDouble route.duration) 60))
  let congestionText :=
    match route.averageCongestion with
    | .number c => numberText (toDouble c)
    | .null => "null"
    | .absent => "undefined"
  let info :=
    "\n        <div class=\"route-info\">\n            <strong>Route Information</strong><br>\n            Distance: "
      ++ distanceKm ++ " km<br>\n            Duration: " ++ durationMin ++ " minutes\n    "
  let info :=
    match route.trafficLevel with
    | some level =>
      if level = "" then info
      else info ++ "<br>Traffic: " ++ level ++ " (" ++ congestionText ++ "% congestion)"
    | none => info
  let info := info ++ "</div>"
  if route.recommended then
    let info := info ++ "\n            <div class=\"route-success\">\n                ✅ "
      ++ route.recommendationReason ++ "\n            </div>\n        "
    let s := addChatMessage "ai" ("I found a better route! " ++ route.recommendationReason
      ++ ". Check the green route on the map.") s
    { s with routeInfo := info }
  else if heavyCongestion route.averageCongestion then
    let info := info ++ "\n            <div class=\"route-warning\">\n                ⚠️ Heavy traffic detected on this route. Consider alternative times or routes.\n            </div>\n        "
    let s := addChatMessage "ai" ("Warning: Heavy traffic detected on this route ("
      ++ congestionText
      ++ "% congestion). You might want to try a different time or ask me for alternatives.") s
    { s with routeInfo := info }
  else
    { s with routeInfo := info }

/-- `displayRoute(route)`. -/
def displayRoute (numberText : Rat → String) (route : Route) (s : AppState) : AppState :=
  let s := { s with mapLayers := removeSlot s.mapLayers s.routeLayer }
  let s := clearCongestionMarkers s
  match route.coordinates with
  | none => { s with alerts := s.alerts ++ ["No route found"] }
  | some [] => { s with alerts := s.alerts ++ ["No route found"] }
  | some (c :: cs) =>
    let color := if route.recommended then "#4caf50" else "#667eea"
    let layer : Layer := ⟨s.nextId, .polyline (c :: cs) color⟩
    let s :=
      { s with
        routeLayer := some layer
        mapLayers := s.mapLayers ++ [layer]
        nextId := s.nextId + 1 }
    let s :=
      match route.routeTrafficPoints with
      | some points => points.foldl addCongestionMarker s
      | none => s
    routeSummary numberText route s

/-- `calculateRoute()` up to the `fetch`: the new state and the request issued, if
any. -/
def calculateRoute (s : AppState) : AppState × Option Request :=
  let startInput := trim s.startLocation.toList
  let endInput := trim s.endLocation.toList
  if startInput = [] ∨ endInput = [] then
    ({ s with alerts := s.alerts ++ ["Please enter both start and end locations"] }, none)
  else
    let start := (splitComma startInput).map (fun p => parseFloat (trim p))
    let stop := (splitComma endInput).map (fun p => parseFloat (trim p))
    match start, stop with
    | [start0, start1], [stop0, stop1] =>
      if isNaN start0 ∨ isNaN stop0 then
        ({ s with alerts := s.alerts ++ ["Invalid coordinates format. Use: latitude, longitude"] },
          none)
      else (s, some (.route start0 start1 stop0 stop1 s.avoidTraffic))
    | _, _ =>
      ({ s with alerts := s.alerts ++ ["Invalid coordinates format. Use: latitude, longitude"] },
        none)

/-- The rest of the `try` block of `calculateRoute`, run when the response has
arrived. -/
def calculateRouteResponse (numberText : Rat → String) (route : Route) (s : AppState) :
    AppState :=
  displayRoute numberText route s

/-- The `catch` block of `calculateRoute`. -/
def calculateRouteError (s : AppState) : AppState :=
  { s with alerts := s.alerts ++ ["Error calculating route. Please try again."] }

/-! ## Location search -/

/-- `searchLocation()` up to the `fetch`. -/
def searchLocation (s : AppState) : AppState × Option Request :=
  let query := String.mk (trim s.locationSearch.toList)
  if query = "" then
    ({ s with alerts := s.alerts ++ ["Please enter a location to search"] }, none)
  else
    let cityContext :=
      match s.currentCity with
      | some city => city.name
      | none => ""
    (s, some (.geocode query cityContext))

/-- The rest of the `try` block of `searchLocation`, run when the geocode answer
has arrived. -/
def searchLocationResponse (result : GeocodeResult) (s : AppState) : AppState :=
  if result.found then
    let marker : Layer := ⟨s.nextId, .marker result.latitude result.longitude .searchPin⟩
    let s :=
      { s with
        mapLayers := removeSlot s.mapLayers s.searchMarker ++ [marker]
        searchMarker := some marker
        nextId := s.nextId + 1 }
    addChatMessage "ai"
      ("Found \"" ++ result.displayName ++ "\". I've zoomed to this location on the map.") s
  else
    { s with alerts := s.alerts ++ ["Location not found. Try a different search term."] }

/-- The `catch` block of `searchLocation`. -/
def searchLocationError (s : AppState) : AppState :=
  { s with alerts := s.alerts ++ ["Error searching location. Please try again."] }

/-! ## Observations used in the statements -/

/-- A marker drawn with the start icon. -/
def Layer.isStartMarker (l : Layer) : Bool :=
  match l.shape with
  | .marker _ _ .startDot => true
  | _ => false

/-- A marker drawn with the end icon. -/
def Layer.isEndMarker (l : Layer) : Bool :=
  match l.shape with
  | .marker _ _ .endDot => true
  | _ => false

/-- A route polyline. -/
def Layer.isPolyline (l : Layer) : Bool :=
  match l.shape with
  | .polyline _ _ => true
  | _ => false

/-- Number of typing placeholders in a transcript. -/
def countTyping (entries : List ChatEntry) : Nat :=
  entries.count .typing

/-! ## Event sequences -/

/-- The chat together with the chat requests that are in flight. -/
structure ChatSystem where
  app : AppState
  pending : List Request
deriving DecidableEq, Repr

/-- What can happen to the chat: the user sends the text `text`; the pending request
number `i` is answered with a body other than `null`, whose `message` reads
`reply`; it is answered with the body `null`; it fails (the request is rejected or
the body is not JSON). -/
inductive ChatEvent where
  | send (text : String)
  | responseSucceeds (i : Nat) (reply : String)
  | responseNull (i : Nat)
  | responseFails (i : Nat)
deriving DecidableEq, Repr

/-- One event of the chat. A send types the text into `chatInput` and runs
`sendChatMessage`, and a request it issues becomes pending; a response or failure
of a pending request runs the matching continuation and retires the request (an
index that names no pending request is no event at all). -/
def chatStep (c : ChatSystem) : ChatEvent → ChatSystem
  | .send text =>
    { app := (sendChatMessage { c.app with chatInput := text }).1
      pending := c.pending ++ (sendChatMessage { c.app with chatInput := text }).2.toList }
  | .responseSucceeds i reply =>
    if i < c.pending.length then
      { app := sendChatMessageResponse (some reply) c.app, pending := c.pending.eraseIdx i }
    else c
  | .responseNull i =>
    if i < c.pending.length then
      { app := sendChatMessageResponse none c.app, pending := c.pending.eraseIdx i }
    else c
  | .responseFails i =>
    if i < c.pending.length then
      { app := sendChatMessageError c.app, pending := c.pending.eraseIdx i }
    else c

/-- The chat after a sequence of events, callbacks running in the order given. -/
def chatRun (c : ChatSystem) (events : List ChatEvent) : ChatSystem :=
  events.foldl chatStep c

/-- The gestures that feed the location picker: a map click, the two buttons of a
search result, the arrival of a geocode answer, and the clear button. -/
inductive PickerEvent where
  | click (lat lon : Rat)
  | setStart (lat lon : Rat)
  | setEnd (lat lon : Rat)
  | searchResult (result : GeocodeResult)
  | clear
deriving DecidableEq, Repr

/-- One gesture of the location picker. -/
def pickerStep (s : AppState) : PickerEvent → AppState
  | .click lat lon => mapClick lat lon s
  | .setStart lat lon => setAsStart lat lon s
  | .setEnd lat lon => setAsEnd lat lon s
  | .searchResult result => searchLocationResponse result s
  | .clear => clearRoute s

/-- The state after a sequence of gestures. -/
def pickerRun (s : AppState) (events : List PickerEvent) : AppState :=
  events.foldl pickerStep s

/-- The slot discipline of one named marker slot, on the map layers `layers` with
next unused stamp `nextId`: the markers of that kind on the map are none, or exactly
the one the slot variable holds; and the slot's marker carries a stamp already
used. -/
def SlotOk (kind : Layer → Bool) (slot : Option Layer) (layers : List Layer) (nextId : Nat) :
    Prop :=
  (layers.filter kind = [] ∨ ∃ x, slot = some x ∧ layers.filter kind = [x])
  ∧ ∀ x, slot = some x → x.id < nextId

/-- The slot discipline of the start and the end marker. -/
def PickerOk (s : AppState) : Prop :=
  SlotOk Layer.isStartMarker s.startMarker s.mapLayers s.nextId
  ∧ SlotOk Layer.isEndMarker s.endMarker s.mapLayers s.nextId

/-! ## Reading a stored coordinate -/

/-- The number a run of decimal digit characters denotes. -/
def decimalValue (cs : List Char) : Nat :=
  cs.foldl (fun acc c => 10 * acc + (c.toNat - 48)) 0

/-- The text `text` is the fixed notation of `x` rounded to five decimals: a minus
sign exactly when `x` is negative, a non-empty run of digits, a point and five
digits, such that the digits read as an integer are the integer nearest to
`|x| * 10^5`, the larger one on a tie. -/
def RoundedToFive (x : Rat) (text : String) : Prop :=
  ∃ a b : List Char,
    text = String.mk ((if x < 0 then ['-'] else []) ++ a ++ '.' :: b)
    ∧ a ≠ [] ∧ b.length = 5
    ∧ (∀ c ∈ a ++ b, c.isDigit = true)
    ∧ |x| * 10 ^ 5 - 1 / 2 < (decimalValue (a ++ b) : Rat)
    ∧ (decimalValue (a ++ b) : Rat) ≤ |x| * 10 ^ 5 + 1 / 2

/-- The component the specification describes: the decimal expansion of `x` with
every digit after the `f`-th decimal dropped (`1.234567` gives `1.23456` for
`f = 5`). It is written like `toFixed` writes, from the floor of `|x| * 10^f`. -/
def specTruncatedText (x : Rat) (f : Nat) : String :=
  let n : Nat := x.num.natAbs * 10 ^ f / x.den
  let m := Nat.toDigits 10 n
  let m := List.replicate (f + 1 - m.length) '0' ++ m
  let k := m.length - f
  String.mk ((if x.num < 0 then ['-'] else []) ++ m.take k
    ++ (if f = 0 then [] else '.' :: m.drop k))

/-- The location text the specification describes: both components truncated to
five decimals. -/
def specCoordText (lat lon : Rat) : String :=
  specTruncatedText lat 5 ++ ", " ++ specTruncatedText lon 5

/-! ## Reading a Number -/

/-- The rational `x` is a finite Number: an integer of less than 53 bits times a
power of two not below `2^-1074` (overflow apart). -/
def IsDouble (x : Rat) : Prop :=
  ∃ m k : Int, |m| < 2 ^ 53 ∧ -1074 ≤ k ∧ x = (m : Rat) * (2 : Rat) ^ k

/-- The rational `d` is `x` rounded to the nearest Number, ties to even: `d` is a
multiple `m * 2^u` of the spacing `2^u` of the Numbers at `x` (`u` is 52 below the
binary exponent `e` of `x`, and at least `-1074`), at most half a spacing away from
`x`, with `m` even when exactly half a spacing away. -/
def NearestDouble (x d : Rat) : Prop :=
  (x = 0 ∧ d = 0)
  ∨ ∃ e m : Int,
      (2 : Rat) ^ e ≤ |x| ∧ |x| < (2 : Rat) ^ (e + 1)
      ∧ d = (m : Rat) * (2 : Rat) ^ max (e - 52) (-1074)
      ∧ |d - x| ≤ (2 : Rat) ^ max (e - 52) (-1074) / 2
      ∧ (|d - x| = (2 : Rat) ^ max (e - 52) (-1074) / 2 → Even m)

/-! ## Properties of the LocationPicker -/

theorem coordText_ne_empty (lat lon : Rat) : coordText lat lon ≠ "" := by
  intro h
  have h2 := congrArg String.length h
  simp [coordText, String.length_append] at h2
  have h3 : (", " : String).length = 2 := by decide
  omega

theorem mem_append_new (layers : List Layer) (l : Layer) : l ∈ layers ++ [l] := by
  simp

/-- C1. From a state whose start and end inputs are both empty, the first map click
writes the clicked coordinates to the start input and installs a start marker
there, the second writes to the end input and installs an end marker, leaving the
start slot alone, and the third changes nothing; and a click in any state whose
two inputs are both non-empty returns that state unchanged. -/
theorem mapClick_fills_start_then_end (s : AppState) (lat1 lon1 lat2 lon2 lat3 lon3 : Rat)
    (hstart : s.startLocation = "") (hend : s.endLocation = "") :
    (mapClick lat1 lon1 s).startLocation = coordText lat1 lon1
    ∧ (mapClick lat1 lon1 s).endLocation = ""
    ∧ (mapClick lat1 lon1 s).startMarker = some ⟨s.nextId, .marker lat1 lon1 .startDot⟩
    ∧ (⟨s.nextId, .marker lat1 lon1 .startDot⟩ : Layer) ∈ (mapClick lat1 lon1 s).mapLayers
    ∧ (mapClick lat2 lon2 (mapClick lat1 lon1 s)).endLocation = coordText lat2 lon2
    ∧ (mapClick lat2 lon2 (mapClick lat1 lon1 s)).endMarker
        = some ⟨s.nextId + 1, .marker lat2 lon2 .endDot⟩
    ∧ (⟨s.nextId + 1, .marker lat2 lon2 .endDot⟩ : Layer)
        ∈ (mapClick lat2 lon2 (mapClick lat1 lon1 s)).mapLayers
    ∧ (mapClick lat2 lon2 (mapClick lat1 lon1 s)).startLocation = coordText lat1 lon1
    ∧ (mapClick lat2 lon2 (mapClick lat1 lon1 s)).startMarker
        = some ⟨s.nextId, .marker lat1 lon1 .startDot⟩
    ∧ mapClick lat3 lon3 (mapClick lat2 lon2 (mapClick lat1 lon1 s))
        = mapClick lat2 lon2 (mapClick lat1 lon1 s)
    ∧ (∀ (t : AppState) (lat lon : Rat), t.startLocation ≠ "" → t.endLocation ≠ "" →
        mapClick lat lon t = t) := by
  have h1 : mapClick lat1 lon1 s =
      { s with
        startLocation := coordText lat1 lon1
        mapLayers := removeSlot s.mapLayers s.startMarker
          ++ [⟨s.nextId, .marker lat1 lon1 .startDot⟩]
        startMarker := some ⟨s.nextId, .marker lat1 lon1 .startDot⟩
        nextId := s.nextId + 1 } := by
    simp [mapClick, hstart]
  have hgen : ∀ (t : AppState) (lat lon : Rat), t.startLocation ≠ "" → t.endLocation ≠ "" →
      mapClick lat lon t = t := by
    intro t lat lon hs he
    simp [mapClick, hs, he]
  have hne1 := coordText_ne_empty lat1 lon1
  have hne2 := coordText_ne_empty lat2 lon2
  have h2 : mapClick lat2 lon2 (mapClick lat1 lon1 s) =
      { mapClick lat1 lon1 s with
        endLocation := coordText lat2 lon2
        mapLayers := removeSlot (mapClick lat1 lon1 s).mapLayers s.endMarker
          ++ [⟨s.nextId + 1, .marker lat2 lon2 .endDot⟩]
        endMarker := some ⟨s.nextId + 1, .marker lat2 lon2 .endDot⟩
        nextId := s.nextId + 2 } := by
    rw [h1]
    simp [mapClick, hne1, hend]
  refine ⟨?_, ?_, ?_, ?_, ?_, ?_, ?_, ?_, ?_, ?_, hgen⟩
  · rw [h1]
  · rw [h1]; exact hend
  · rw [h1]
  · rw [h1]; exact mem_append_new _ _
  · rw [h2]
  · rw [h2]
  · rw [h2]; exact mem_append_new _ _
  · rw [h2, h1]
  · rw [h2, h1]
  · apply hgen
    · rw [h2, h1]; exact hne1
    · rw [h2]; exact hne2

theorem mapClick_fills_start_then_end_witness :
    (initialState "session_1_a").startLocation = "" ∧ (initialState "session_1_a").endLocation = ""
    ∧ (mapClick 3 4 (mapClick 1 2 (initialState "session_1_a"))).endLocation = coordText 3 4
    ∧ mapClick 5 6 (mapClick 3 4 (mapClick 1 2 (initialState "session_1_a")))
        = mapClick 3 4 (mapClick 1 2 (initialState "session_1_a")) :=
  ⟨rfl, rfl,
    (mapClick_fills_start_then_end (initialState "session_1_a") 1 2 3 4 5 6 rfl rfl).2.2.2.2.1,
    (mapClick_fills_start_then_end (initialState "session_1_a") 1 2 3 4 5 6 rfl rfl).2.2.2.2.2.2.2.2.2.1⟩

/-! ## Removal of layers -/

theorem mem_removeLayer (layers : List Layer) (x l : Layer) :
    l ∈ removeLayer layers x ↔ l ∈ layers ∧ l.id ≠ x.id := by
  simp [removeLayer]

theorem mem_removeSlot (layers : List Layer) (slot : Option Layer) (l : Layer) :
    l ∈ removeSlot layers slot ↔ l ∈ layers ∧ ∀ x, slot = some x → l.id ≠ x.id := by
  cases slot with
  | none => simp [removeSlot]
  | some x => simp [removeSlot, mem_removeLayer]

theorem mem_removeAll (markers : List Layer) (layers : List Layer) (l : Layer) :
    l ∈ removeAll layers markers ↔ l ∈ layers ∧ ∀ m ∈ markers, l.id ≠ m.id := by
  induction markers generalizing layers with
  | nil => simp [removeAll]
  | cons m ms ih =>
    have h : removeAll layers (m :: ms) = removeAll (removeLayer layers m) ms := rfl
    rw [h, ih, mem_removeLayer]
    constructor
    · rintro ⟨⟨h1, h2⟩, h3⟩
      refine ⟨h1, ?_⟩
      intro x hx
      rcases List.mem_cons.mp hx with rfl | hx
      · exact h2
      · exact h3 x hx
    · rintro ⟨h1, h2⟩
      exact ⟨⟨h1, h2 m (List.mem_cons_self _ _)⟩, fun x hx => h2 x (List.mem_cons_of_mem _ hx)⟩

/-! ## Properties of route calculation and display -/

/-- What `calculateRoute` does when it issues no request: it raises one notice and
changes nothing else. -/
theorem calculateRoute_no_request (s : AppState) (h : (calculateRoute s).2 = none) :
    ∃ notice, (calculateRoute s).1 = { s with alerts := s.alerts ++ [notice] } := by
  revert h
  unfold calculateRoute
  simp only
  split
  · intro _
    exact ⟨_, rfl⟩
  · split
    · split
      · intro _
        exact ⟨_, rfl⟩
      · intro h
        simp at h
    · intro _
      exact ⟨_, rfl⟩

/-- Inputs `calculateRoute` turns down: a blank start or end text, a text that does
not have exactly two comma-separated components, or a first component (latitude)
that does not parse. -/
theorem calculateRoute_rejects (s : AppState)
    (h : trim s.startLocation.toList = [] ∨ trim s.endLocation.toList = []
      ∨ (splitComma (trim s.startLocation.toList)).length ≠ 2
      ∨ (splitComma (trim s.endLocation.toList)).length ≠ 2
      ∨ (∃ p ps, splitComma (trim s.startLocation.toList) = p :: ps
          ∧ isNaN (parseFloat (trim p)) = true)
      ∨ (∃ p ps, splitComma (trim s.endLocation.toList) = p :: ps
          ∧ isNaN (parseFloat (trim p)) = true)) :
    (calculateRoute s).2 = none := by
  unfold calculateRoute
  simp only
  split
  · rfl
  · rename_i hne
    split
    · rename_i a b c d h1 h2
      have hl1 := congrArg List.length h1
      have hl2 := congrArg List.length h2
      simp only [List.length_map, List.length_cons, List.length_nil] at hl1 hl2
      rcases h with h | h | h | h | ⟨p, ps, hp, hn⟩ | ⟨p, ps, hp, hn⟩
      · exact absurd (Or.inl h) hne
      · exact absurd (Or.inr h) hne
      · exact absurd hl1 h
      · exact absurd hl2 h
      · rw [hp] at h1
        simp only [List.map_cons, List.cons.injEq] at h1
        rw [h1.1] at hn
        simp [hn]
      · rw [hp] at h2
        simp only [List.map_cons, List.cons.injEq] at h2
        rw [h2.1] at hn
        simp [hn]
    · rfl

/-- C2 (failing input). With start text `12.5, abc` (a longitude that is not a
number) and a well-formed end text, `calculateRoute` issues the route request with
`startLon = NaN` and raises no notice: only the two latitudes are tested. -/
theorem calculateRoute_accepts_non_numeric_longitude :
    calculateRoute
        { initialState "session_1_a" with
          startLocation := "12.5, abc", endLocation := "12.6, 77.6" }
      = ({ initialState "session_1_a" with
            startLocation := "12.5, abc", endLocation := "12.6, 77.6" },
          some (.route (.ofLiteral "12.5".toList) .nan (.ofLiteral "12.6".toList)
            (.ofLiteral "77.6".toList) false)) := by
  rfl

/-- C3. For a route whose `coordinates` are missing or empty, `displayRoute` takes
the previous route polyline and every previous congestion marker off the map,
empties the congestion-marker collection, raises the notice "No route found" and
does nothing else: no layer is added, the route summary and the transcript are
untouched; so a map whose only polyline was the previous route shows no route. -/
theorem displayRoute_without_coordinates (numberText : Rat → String) (route : Route)
    (s : AppState) (h : route.coordinates = none ∨ route.coordinates = some []) :
    displayRoute numberText route s
        = { s with
            mapLayers := removeAll (removeSlot s.mapLayers s.routeLayer) s.congestionMarkers
            congestionMarkers := []
            alerts := s.alerts ++ ["No route found"] }
    ∧ (∀ l, s.routeLayer = some l → l ∉ (displayRoute numberText route s).mapLayers)
    ∧ (∀ m ∈ s.congestionMarkers, m ∉ (displayRoute numberText route s).mapLayers)
    ∧ (∀ l ∈ (displayRoute numberText route s).mapLayers, l ∈ s.mapLayers)
    ∧ (displayRoute numberText route s).congestionMarkers = []
    ∧ (displayRoute numberText route s).alerts = s.alerts ++ ["No route found"]
    ∧ (displayRoute numberText route s).routeInfo = s.routeInfo
    ∧ (displayRoute numberText route s).chatMessages = s.chatMessages
    ∧ ((∀ l ∈ s.mapLayers, l.isPolyline = true → s.routeLayer = some l) →
        ∀ l ∈ (displayRoute numberText route s).mapLayers, l.isPolyline = false) := by
  have heq : displayRoute numberText route s
        = { s with
            mapLayers := removeAll (removeSlot s.mapLayers s.routeLayer) s.congestionMarkers
            congestionMarkers := []
            alerts := s.alerts ++ ["No route found"] } := by
    rcases h with h | h <;> simp [displayRoute, clearCongestionMarkers, h]
  rw [heq]
  refine ⟨rfl, ?_, ?_, ?_, rfl, rfl, rfl, rfl, ?_⟩
  · intro l hl hmem
    have h1 := ((mem_removeAll _ _ _).mp hmem).1
    exact ((mem_removeSlot _ _ _).mp h1).2 l hl rfl
  · intro m hm hmem
    exact ((mem_removeAll _ _ _).mp hmem).2 m hm rfl
  · intro l hmem
    have h1 := ((mem_removeAll _ _ _).mp hmem).1
    exact ((mem_removeSlot _ _ _).mp h1).1
  · intro hwf l hmem
    have h1 := ((mem_removeAll _ _ _).mp hmem).1
    have h2 := (mem_removeSlot _ _ _).mp h1
    cases hp : l.isPolyline with
    | false => rfl
    | true => exact absurd rfl (h2.2 l (hwf l h2.1 hp))

theorem displayRoute_without_coordinates_witness :
    ((⟨some [], 1200, 300, false, "", none, .absent, none⟩ : Route).coordinates = none
      ∨ (⟨some [], 1200, 300, false, "", none, .absent, none⟩ : Route).coordinates = some [])
    ∧ ∀ l ∈ (displayRoute (fun _ => "") ⟨some [], 1200, 300, false, "", none, .absent, none⟩
        { initialState "session_1_a" with
          nextId := 2
          mapLayers := [⟨0, .polyline [⟨1, 2⟩, ⟨3, 4⟩] "#667eea"⟩,
            ⟨1, .circleMarker 1 2 6 "#ff9800" 1⟩]
          routeLayer := some ⟨0, .polyline [⟨1, 2⟩, ⟨3, 4⟩] "#667eea"⟩
          congestionMarkers := [⟨1, .circleMarker 1 2 6 "#ff9800" 1⟩] }).mapLayers,
        l.isPolyline = false :=
  ⟨Or.inr rfl,
    (displayRoute_without_coordinates (fun _ => "")
      ⟨some [], 1200, 300, false, "", none, .absent, none⟩
      { initialState "session_1_a" with
        nextId := 2
        mapLayers := [⟨0, .polyline [⟨1, 2⟩, ⟨3, 4⟩] "#667eea"⟩,
          ⟨1, .circleMarker 1 2 6 "#ff9800" 1⟩]
        routeLayer := some ⟨0, .polyline [⟨1, 2⟩, ⟨3, 4⟩] "#667eea"⟩
        congestionMarkers := [⟨1, .circleMarker 1 2 6 "#ff9800" 1⟩] }
      (Or.inr rfl)).2.2.2.2.2.2.2.2 (by simp [initialState, Layer.isPolyline])⟩

/-- The state after the `forEach` over the traffic points: one marker per point whose
congestion exceeds 20, stamped consecutively from the next unused stamp, appended to
the map and to the collection. -/
theorem foldl_addCongestionMarker (points : List TrafficPoint) (t : AppState) :
    points.foldl addCongestionMarker t
      = { t with
          mapLayers := t.mapLayers ++
            ((points.filter (fun p => decide (p.congestion > 20))).enumFrom t.nextId).map
              (fun ip => (⟨ip.1, .circleMarker ip.2.latitude ip.2.longitude 6
                (getCongestionColor ip.2.congestion) (8 / 10)⟩ : Layer))
          congestionMarkers := t.congestionMarkers ++
            ((points.filter (fun p => decide (p.congestion > 20))).enumFrom t.nextId).map
              (fun ip => (⟨ip.1, .circleMarker ip.2.latitude ip.2.longitude 6
                (getCongestionColor ip.2.congestion) (8 / 10)⟩ : Layer))
          nextId := t.nextId + (points.filter (fun p => decide (p.congestion > 20))).length } := by
  induction points generalizing t with
  | nil => simp
  | cons p ps ih =>
    rw [List.foldl_cons, ih]
    by_cases hp : p.congestion > 20
    · simp [addCongestionMarker, hp, List.filter_cons, List.enumFrom_cons]
      omega
    · simp [addCongestionMarker, hp, List.filter_cons]

theorem routeSummary_layers (numberText : Rat → String) (route : Route) (t : AppState) :
    (routeSummary numberText route t).mapLayers = t.mapLayers
    ∧ (routeSummary numberText route t).congestionMarkers = t.congestionMarkers
    ∧ (routeSummary numberText route t).routeLayer = t.routeLayer
    ∧ (routeSummary numberText route t).nextId = t.nextId := by
  unfold routeSummary
  simp only
  split_ifs <;> simp [addChatMessage]

theorem displayRoute_with_coordinates (numberText : Rat → String) (route : Route)
    (s : AppState) (coords : List LatLng) (h : route.coordinates = some coords)
    (hne : coords ≠ []) :
    (displayRoute numberText route s).congestionMarkers
      = (((route.routeTrafficPoints.getD []).filter
            (fun p => decide (p.congestion > 20))).enumFrom (s.nextId + 1)).map
          (fun ip => (⟨ip.1, .circleMarker ip.2.latitude ip.2.longitude 6
            (getCongestionColor ip.2.congestion) (8 / 10)⟩ : Layer))
    ∧ (displayRoute numberText route s).mapLayers
      = removeAll (removeSlot s.mapLayers s.routeLayer) s.congestionMarkers
        ++ [⟨s.nextId, .polyline coords (if route.recommended then "#4caf50" else "#667eea")⟩]
        ++ (((route.routeTrafficPoints.getD []).filter
            (fun p => decide (p.congestion > 20))).enumFrom (s.nextId + 1)).map
          (fun ip => (⟨ip.1, .circleMarker ip.2.latitude ip.2.longitude 6
            (getCongestionColor ip.2.congestion) (8 / 10)⟩ : Layer)) := by
  cases coords with
  | nil => exact absurd rfl hne
  | cons c cs =>
    cases hp : route.routeTrafficPoints with
    | none =>
      simp [displayRoute, h, hp, routeSummary_layers, clearCongestionMarkers]
    | some points =>
      simp [displayRoute, h, hp, routeSummary_layers, clearCongestionMarkers,
        foldl_addCongestionMarker]

theorem mem_enumFrom_map_id {α : Type} (f : Nat × α → Layer) (hf : ∀ ip, (f ip).id = ip.1)
    (n : Nat) (xs : List α) (l : Layer) (hl : l ∈ (xs.enumFrom n).map f) : n ≤ l.id := by
  obtain ⟨ip, hip, rfl⟩ := List.mem_map.mp hl
  rw [hf]
  obtain ⟨i, x⟩ := ip
  exact (List.mem_enumFrom hip).1

/-- C4. For a route with non-empty coordinates, after `displayRoute` the
congestion-marker collection is, in order, one circle marker per traffic point whose
congestion exceeds 20 and none for a point at or below 20, each at the point's
position and filled red `#dc3545` from 70, yellow `#ffc107` from 50, orange
`#ff9800` from 30 and green `#4caf50` below; every one of them is on the map, and no
congestion marker of the earlier route is left in the collection or on the map. -/
theorem displayRoute_congestion_markers (numberText : Rat → String) (route : Route)
    (s : AppState) (coords : List LatLng) (h : route.coordinates = some coords)
    (hne : coords ≠ []) :
    (displayRoute numberText route s).congestionMarkers
      = (((route.routeTrafficPoints.getD []).filter
            (fun p => decide (p.congestion > 20))).enumFrom (s.nextId + 1)).map
          (fun ip => (⟨ip.1, .circleMarker ip.2.latitude ip.2.longitude 6
            (if ip.2.congestion ≥ 70 then "#dc3545"
              else if ip.2.congestion ≥ 50 then "#ffc107"
              else if ip.2.congestion ≥ 30 then "#ff9800"
              else "#4caf50") (8 / 10)⟩ : Layer))
    ∧ (∀ m ∈ (displayRoute numberText route s).congestionMarkers,
        m ∈ (displayRoute numberText route s).mapLayers)
    ∧ (∀ m ∈ s.congestionMarkers, m.id < s.nextId →
        m ∉ (displayRoute numberText route s).congestionMarkers
        ∧ m ∉ (displayRoute numberText route s).mapLayers) := by
  obtain ⟨hmarkers, hmap⟩ := displayRoute_with_coordinates numberText route s coords h hne
  have hid : ∀ ip : Nat × TrafficPoint,
      (⟨ip.1, .circleMarker ip.2.latitude ip.2.longitude 6
        (getCongestionColor ip.2.congestion) (8 / 10)⟩ : Layer).id = ip.1 := fun _ => rfl
  refine ⟨?_, ?_, ?_⟩
  · rw [hmarkers]
    rfl
  · intro m hm
    rw [hmap]
    rw [hmarkers] at hm
    exact List.mem_append_right _ hm
  · intro m hm hlt
    constructor
    · intro hmem
      rw [hmarkers] at hmem
      have := mem_enumFrom_map_id _ hid _ _ m hmem
      omega
    · intro hmem
      rw [hmap] at hmem
      rcases List.mem_append.mp hmem with hmem | hmem
      · rcases List.mem_append.mp hmem with hmem | hmem
        · exact ((mem_removeAll _ _ _).mp hmem).2 m hm rfl
        · rw [List.mem_singleton] at hmem
          rw [hmem] at hlt
          exact absurd hlt (Nat.lt_irrefl _)
      · have := mem_enumFrom_map_id _ hid _ _ m hmem
        omega

theorem displayRoute_congestion_markers_witness :
    (⟨some [⟨1, 2⟩, ⟨3, 4⟩], 1200, 300, false, "", none, .absent,
        some [⟨1, 2, 20⟩, ⟨1, 3, 21⟩, ⟨3, 4, 80⟩]⟩ : Route).coordinates
      = some [⟨1, 2⟩, ⟨3, 4⟩]
    ∧ ([⟨1, 2⟩, ⟨3, 4⟩] : List LatLng) ≠ []
    ∧ (displayRoute (fun _ => "")
        ⟨some [⟨1, 2⟩, ⟨3, 4⟩], 1200, 300, false, "", none, .absent,
          some [⟨1, 2, 20⟩, ⟨1, 3, 21⟩, ⟨3, 4, 80⟩]⟩
        (initialState "session_1_a")).congestionMarkers
      = [⟨1, .circleMarker 1 3 6 "#4caf50" (8 / 10)⟩, ⟨2, .circleMarker 3 4 6 "#dc3545" (8 / 10)⟩] := by
  refine ⟨rfl, by simp, ?_⟩
  rw [(displayRoute_congestion_markers (fun _ => "")
        ⟨some [⟨1, 2⟩, ⟨3, 4⟩], 1200, 300, false, "", none, .absent,
          some [⟨1, 2, 20⟩, ⟨1, 3, 21⟩, ⟨3, 4, 80⟩]⟩
        (initialState "session_1_a") [⟨1, 2⟩, ⟨3, 4⟩] rfl (by simp)).1]
  norm_num [initialState, List.enumFrom, List.filter]

/-! ## Properties of the incident overlay -/

/-- The state after the `forEach` of `displayIncidents`: one marker per incident,
stamped consecutively from the next unused stamp, appended to the map and to the
collection. -/
theorem foldl_addIncidentMarker (incidents : List Incident) (t : AppState) :
    incidents.foldl addIncidentMarker t
      = { t with
          mapLayers := t.mapLayers ++ (incidents.enumFrom t.nextId).map
            (fun ip => (⟨ip.1, .circleMarker ip.2.latitude ip.2.longitude
              (8 + (if ip.2.severity = 0 then 1 else ip.2.severity) * 2)
              (if (if ip.2.severity = 0 then 1 else ip.2.severity) ≥ 3 then "#dc3545"
                else if (if ip.2.severity = 0 then 1 else ip.2.severity) ≥ 2 then "#ffc107"
                else "#28a745") (7 / 10)⟩ : Layer))
          incidentMarkers := t.incidentMarkers ++ (incidents.enumFrom t.nextId).map
            (fun ip => (⟨ip.1, .circleMarker ip.2.latitude ip.2.longitude
              (8 + (if ip.2.severity = 0 then 1 else ip.2.severity) * 2)
              (if (if ip.2.severity = 0 then 1 else ip.2.severity) ≥ 3 then "#dc3545"
                else if (if ip.2.severity = 0 then 1 else ip.2.severity) ≥ 2 then "#ffc107"
                else "#28a745") (7 / 10)⟩ : Layer))
          nextId := t.nextId + incidents.length } := by
  induction incidents generalizing t with
  | nil => simp
  | cons p ps ih =>
    rw [List.foldl_cons, ih]
    simp [addIncidentMarker, List.enumFrom_cons]
    omega

/-- C5. For every state and every incident list whose severities are 1, 2, 3 or 4,
after `displayIncidents` the incident-marker collection is, in order, one circle
marker per incident, at the incident's position, of radius `8 + 2 * severity` and
filled red `#dc3545` from severity 3, amber `#ffc107` from 2 and green `#28a745`
below; the map holds the layers it held before except the earlier incident markers,
followed by exactly these markers; and no earlier incident marker is left in the
collection or on the map. -/
theorem displayIncidents_rebuilds_markers (incidents : List Incident) (s : AppState)
    (hsev : ∀ i ∈ incidents, i.severity = 1 ∨ i.severity = 2 ∨ i.severity = 3 ∨ i.severity = 4) :
    (displayIncidents incidents s).incidentMarkers
      = (incidents.enumFrom s.nextId).map
          (fun ip => (⟨ip.1, .circleMarker ip.2.latitude ip.2.longitude (8 + 2 * ip.2.severity)
            (if ip.2.severity ≥ 3 then "#dc3545"
              else if ip.2.severity ≥ 2 then "#ffc107"
              else "#28a745") (7 / 10)⟩ : Layer))
    ∧ (displayIncidents incidents s).mapLayers
      = removeAll s.mapLayers s.incidentMarkers ++ (displayIncidents incidents s).incidentMarkers
    ∧ (∀ m ∈ s.incidentMarkers, m.id < s.nextId →
        m ∉ (displayIncidents incidents s).incidentMarkers
        ∧ m ∉ (displayIncidents incidents s).mapLayers) := by
  have hmk : (displayIncidents incidents s).incidentMarkers
      = (incidents.enumFrom s.nextId).map
          (fun ip => (⟨ip.1, .circleMarker ip.2.latitude ip.2.longitude (8 + 2 * ip.2.severity)
            (if ip.2.severity ≥ 3 then "#dc3545"
              else if ip.2.severity ≥ 2 then "#ffc107"
              else "#28a745") (7 / 10)⟩ : Layer)) := by
    unfold displayIncidents
    rw [foldl_addIncidentMarker]
    simp only [clearIncidents, List.nil_append]
    apply List.map_congr_left
    rintro ⟨n, i⟩ hi
    have hmem : i ∈ incidents := List.snd_mem_of_mem_enumFrom hi
    have h0 : i.severity ≠ 0 := by
      rcases hsev i hmem with h | h | h | h <;> rw [h] <;> norm_num
    simp [h0, mul_comm]
  have hmap : (displayIncidents incidents s).mapLayers
      = removeAll s.mapLayers s.incidentMarkers
        ++ (displayIncidents incidents s).incidentMarkers := by
    unfold displayIncidents
    rw [foldl_addIncidentMarker]
    simp [clearIncidents]
  refine ⟨hmk, hmap, ?_⟩
  intro m hm hlt
  have hnew : m ∉ (displayIncidents incidents s).incidentMarkers := by
    intro hmem
    rw [hmk] at hmem
    have := mem_enumFrom_map_id _ (fun _ => rfl) _ _ m hmem
    omega
  refine ⟨hnew, ?_⟩
  intro hmem
  rw [hmap] at hmem
  rcases List.mem_append.mp hmem with hmem | hmem
  · exact ((mem_removeAll _ _ _).mp hmem).2 m hm rfl
  · exact hnew hmem

theorem displayIncidents_rebuilds_markers_witness :
    (∀ i ∈ ([⟨10, 20, 4, 30, "crash"⟩, ⟨11, 21, 2, 5, "works"⟩, ⟨12, 22, 1, 0, "stall"⟩] :
        List Incident),
      i.severity = 1 ∨ i.severity = 2 ∨ i.severity = 3 ∨ i.severity = 4)
    ∧ (displayIncidents
        [⟨10, 20, 4, 30, "crash"⟩, ⟨11, 21, 2, 5, "works"⟩, ⟨12, 22, 1, 0, "stall"⟩]
        (initialState "session_1_a")).incidentMarkers
      = [⟨0, .circleMarker 10 20 16 "#dc3545" (7 / 10)⟩,
         ⟨1, .circleMarker 11 21 12 "#ffc107" (7 / 10)⟩,
         ⟨2, .circleMarker 12 22 10 "#28a745" (7 / 10)⟩] := by
  have hsev : ∀ i ∈ ([⟨10, 20, 4, 30, "crash"⟩, ⟨11, 21, 2, 5, "works"⟩,
      ⟨12, 22, 1, 0, "stall"⟩] : List Incident),
      i.severity = 1 ∨ i.severity = 2 ∨ i.severity = 3 ∨ i.severity = 4 := by
    simp
  refine ⟨hsev, ?_⟩
  rw [(displayIncidents_rebuilds_markers _ (initialState "session_1_a") hsev).1]
  norm_num [initialState, List.enumFrom]

/-! ## Properties of the chat -/

theorem mk_eq_empty_iff (cs : List Char) : String.mk cs = "" ↔ cs = [] :=
  ⟨fun h => congrArg String.data h, fun h => congrArg String.mk h⟩

/-- C7 (as stated, refuted). With no city selected and a blank chat input,
`sendChatMessage` returns the state as it was, without any new transcript entry; so
it is not true that every send without a city appends the instruction. -/
theorem sendChatMessage_blank_without_city :
    sendChatMessage { initialState "session_1_a" with chatInput := "   " }
      = ({ initialState "session_1_a" with chatInput := "   " }, none)
    ∧ ¬ ∀ s : AppState, s.currentCity = none →
        (sendChatMessage s).1.chatMessages
          = s.chatMessages ++ [.message "ai" selectCityMessage] := by
  refine ⟨rfl, ?_⟩
  intro h
  have h1 := congrArg List.length
    (h { initialState "session_1_a" with chatInput := "   " } rfl)
  exact absurd h1 (by decide)

/-- C7 (amended). With no city selected, `sendChatMessage` on an input that is not
blank appends exactly one entry, the assistant's instruction to select a city,
clears the input and issues no request; on a blank input it does nothing and issues
no request. Neither appends a user entry or a typing placeholder. -/
theorem sendChatMessage_without_city (s : AppState) (hcity : s.currentCity = none) :
    (trim s.chatInput.toList ≠ [] →
      sendChatMessage s
        = ({ s with
              chatMessages := s.chatMessages ++ [.message "ai" selectCityMessage]
              chatInput := "" }, none))
    ∧ (trim s.chatInput.toList = [] → sendChatMessage s = (s, none))
    ∧ (sendChatMessage s).2 = none := by
  refine ⟨?_, ?_, ?_⟩
  · intro h
    have h1 : ¬ String.mk (trim s.chatInput.toList) = "" := fun h2 =>
      h ((mk_eq_empty_iff _).mp h2)
    unfold sendChatMessage
    simp only []
    rw [if_neg h1]
    split
    · rfl
    · rename_i city hsome
      rw [hcity] at hsome
      cases hsome
  · intro h
    have h1 : String.mk (trim s.chatInput.toList) = "" := (mk_eq_empty_iff _).mpr h
    unfold sendChatMessage
    simp only []
    rw [if_pos h1]
  · unfold sendChatMessage
    simp only [hcity]
    split <;> rfl

theorem sendChatMessage_without_city_witness :
    (initialState "session_1_a").currentCity = none
    ∧ sendChatMessage { initialState "session_1_a" with chatInput := " how is traffic? " }
      = ({ initialState "session_1_a" with
            chatMessages := [.message "ai" welcomeMessage, .message "ai" selectCityMessage]
            chatInput := "" }, none) :=
  ⟨rfl, (sendChatMessage_without_city
    { initialState "session_1_a" with chatInput := " how is traffic? " } rfl).1 (by decide)⟩

/-! ## The slot discipline of the location picker -/

theorem filter_removeLayer (kind : Layer → Bool) (layers : List Layer) (x : Layer) :
    (removeLayer layers x).filter kind = removeLayer (layers.filter kind) x := by
  simp [removeLayer, List.filter_filter, Bool.and_comm]

theorem filter_removeSlot (kind : Layer → Bool) (layers : List Layer) (slot : Option Layer) :
    (removeSlot layers slot).filter kind = removeSlot (layers.filter kind) slot := by
  cases slot with
  | none => rfl
  | some x => exact filter_removeLayer kind layers x

theorem filter_removeAll (kind : Layer → Bool) (markers : List Layer) (layers : List Layer) :
    (removeAll layers markers).filter kind = removeAll (layers.filter kind) markers := by
  induction markers generalizing layers with
  | nil => rfl
  | cons m ms ih =>
    have h1 : removeAll layers (m :: ms) = removeAll (removeLayer layers m) ms := rfl
    have h2 : removeAll (layers.filter kind) (m :: ms)
        = removeAll (removeLayer (layers.filter kind) m) ms := rfl
    rw [h1, h2, ih, filter_removeLayer]

/-- Removing a layer from a list of at most the slot's own marker leaves at most
the slot's own marker. -/
theorem slot_list_removeLayer (slot : Option Layer) (layers : List Layer) (y : Layer)
    (h : layers = [] ∨ ∃ x, slot = some x ∧ layers = [x]) :
    removeLayer layers y = [] ∨ ∃ x, slot = some x ∧ removeLayer layers y = [x] := by
  rcases h with h | ⟨x, hx, h⟩
  · left
    rw [h]
    rfl
  · rw [h]
    by_cases hid : x.id = y.id
    · left
      simp [removeLayer, hid]
    · right
      exact ⟨x, hx, by simp [removeLayer, hid]⟩

theorem slot_list_removeSlot (slot other : Option Layer) (layers : List Layer)
    (h : layers = [] ∨ ∃ x, slot = some x ∧ layers = [x]) :
    removeSlot layers other = [] ∨ ∃ x, slot = some x ∧ removeSlot layers other = [x] := by
  cases other with
  | none => exact h
  | some y => exact slot_list_removeLayer slot layers y h

theorem slot_list_removeAll (slot : Option Layer) (markers : List Layer) (layers : List Layer)
    (h : layers = [] ∨ ∃ x, slot = some x ∧ layers = [x]) :
    removeAll layers markers = [] ∨ ∃ x, slot = some x ∧ removeAll layers markers = [x] := by
  induction markers generalizing layers with
  | nil => exact h
  | cons m ms ih => exact ih (removeLayer layers m) (slot_list_removeLayer slot layers m h)

/-- Removing the slot's own marker from a list of at most that marker leaves
nothing. -/
theorem slot_list_removeOwn (slot : Option Layer) (layers : List Layer)
    (h : layers = [] ∨ ∃ x, slot = some x ∧ layers = [x]) :
    removeSlot layers slot = [] := by
  rcases h with h | ⟨x, hx, h⟩
  · rw [h]
    cases slot <;> rfl
  · rw [h, hx]
    simp [removeSlot, removeLayer]

theorem removeLayer_nil (y : Layer) : removeLayer [] y = [] := rfl

theorem removeSlot_nil (slot : Option Layer) : removeSlot [] slot = [] := by
  cases slot <;> rfl

theorem removeAll_nil (markers : List Layer) : removeAll [] markers = [] := by
  induction markers with
  | nil => rfl
  | cons m ms ih => exact ih

/-- Replacing the slot's marker: the old one is removed, the new one installed. -/
theorem SlotOk_install (kind : Layer → Bool) (slot : Option Layer) (layers : List Layer)
    (n : Nat) (new : Layer) (hk : kind new = true) (hid : new.id = n)
    (h : SlotOk kind slot layers n) :
    SlotOk kind (some new) (removeSlot layers slot ++ [new]) (n + 1)
    ∧ (removeSlot layers slot ++ [new]).filter kind = [new] := by
  have hf : (removeSlot layers slot ++ [new]).filter kind = [new] := by
    rw [List.filter_append, filter_removeSlot, slot_list_removeOwn slot _ h.1]
    simp [hk]
  refine ⟨⟨Or.inr ⟨new, rfl, hf⟩, ?_⟩, hf⟩
  intro x hx
  cases hx
  omega

/-- Replacing another slot's marker by a layer of another kind keeps the slot's
discipline. -/
theorem SlotOk_other (kind : Layer → Bool) (slot other : Option Layer) (layers : List Layer)
    (n : Nat) (new : Layer) (hk : kind new = false) (h : SlotOk kind slot layers n) :
    SlotOk kind slot (removeSlot layers other ++ [new]) (n + 1) := by
  constructor
  · rw [List.filter_append, filter_removeSlot]
    have hnew : [new].filter kind = [] := by simp [hk]
    rw [hnew, List.append_nil]
    exact slot_list_removeSlot slot other _ h.1
  · intro x hx
    have := h.2 x hx
    omega

theorem PickerOk_setAsStart (lat lon : Rat) (s : AppState) (h : PickerOk s) :
    PickerOk (setAsStart lat lon s) :=
  ⟨(SlotOk_install _ _ _ _ ⟨s.nextId, .marker lat lon .startDot⟩ rfl rfl h.1).1,
    SlotOk_other _ _ _ _ _ ⟨s.nextId, .marker lat lon .startDot⟩ rfl h.2⟩

theorem PickerOk_setAsEnd (lat lon : Rat) (s : AppState) (h : PickerOk s) :
    PickerOk (setAsEnd lat lon s) :=
  ⟨SlotOk_other _ _ _ _ _ ⟨s.nextId, .marker lat lon .endDot⟩ rfl h.1,
    (SlotOk_install _ _ _ _ ⟨s.nextId, .marker lat lon .endDot⟩ rfl rfl h.2).1⟩

theorem PickerOk_mapClick (lat lon : Rat) (s : AppState) (h : PickerOk s) :
    PickerOk (mapClick lat lon s) := by
  unfold mapClick
  split
  · exact PickerOk_setAsStart lat lon s h
  · split
    · exact PickerOk_setAsEnd lat lon s h
    · exact h

theorem PickerOk_searchLocationResponse (result : GeocodeResult) (s : AppState)
    (h : PickerOk s) : PickerOk (searchLocationResponse result s) := by
  unfold searchLocationResponse
  split
  · exact ⟨SlotOk_other _ _ _ _ _ ⟨s.nextId, .marker result.latitude result.longitude .searchPin⟩
        rfl h.1,
      SlotOk_other _ _ _ _ _ ⟨s.nextId, .marker result.latitude result.longitude .searchPin⟩
        rfl h.2⟩
  · exact h

theorem clearRoute_mapLayers (s : AppState) :
    (clearRoute s).mapLayers
      = removeAll (removeSlot (removeSlot (removeSlot s.mapLayers s.routeLayer) s.startMarker)
          s.endMarker) s.congestionMarkers
    ∧ (clearRoute s).startMarker = none ∧ (clearRoute s).endMarker = none
    ∧ (clearRoute s).routeLayer = none ∧ (clearRoute s).congestionMarkers = []
    ∧ (clearRoute s).startLocation = "" ∧ (clearRoute s).endLocation = ""
    ∧ (clearRoute s).routeInfo = "" ∧ (clearRoute s).nextId = s.nextId :=
  ⟨rfl, rfl, rfl, rfl, rfl, rfl, rfl, rfl, rfl⟩

theorem PickerOk_clearRoute (s : AppState) (h : PickerOk s) : PickerOk (clearRoute s) := by
  obtain ⟨hmap, hs, he, -, -, -, -, -, -⟩ := clearRoute_mapLayers s
  unfold PickerOk
  rw [hmap, hs, he]
  constructor
  · constructor
    · left
      rw [filter_removeAll, filter_removeSlot, filter_removeSlot, filter_removeSlot,
        slot_list_removeOwn s.startMarker _ (slot_list_removeSlot _ s.routeLayer _ h.1.1),
        removeSlot_nil, removeAll_nil]
    · intro x hx
      cases hx
  · constructor
    · left
      rw [filter_removeAll, filter_removeSlot, filter_removeSlot, filter_removeSlot,
        slot_list_removeOwn s.endMarker _
          (slot_list_removeSlot _ s.startMarker _ (slot_list_removeSlot _ s.routeLayer _ h.2.1)),
        removeAll_nil]
    · intro x hx
      cases hx

theorem PickerOk_pickerStep (e : PickerEvent) (s : AppState) (h : PickerOk s) :
    PickerOk (pickerStep s e) := by
  cases e with
  | click lat lon => exact PickerOk_mapClick lat lon s h
  | setStart lat lon => exact PickerOk_setAsStart lat lon s h
  | setEnd lat lon => exact PickerOk_setAsEnd lat lon s h
  | searchResult result => exact PickerOk_searchLocationResponse result s h
  | clear => exact PickerOk_clearRoute s h

theorem PickerOk_initialState (sessionId : String) : PickerOk (initialState sessionId) :=
  ⟨⟨Or.inl rfl, fun x hx => by cases hx⟩, ⟨Or.inl rfl, fun x hx => by cases hx⟩⟩

theorem PickerOk_pickerRun (events : List PickerEvent) (s : AppState) (h : PickerOk s) :
    PickerOk (pickerRun s events) := by
  induction events generalizing s with
  | nil => exact h
  | cons e es ih => exact ih (pickerStep s e) (PickerOk_pickerStep e s h)

theorem mem_filter_slot (kind : Layer → Bool) (slot : Option Layer) (layers : List Layer)
    (n : Nat) (h : SlotOk kind slot layers n) (l : Layer) (hl : l ∈ layers)
    (hk : kind l = true) : slot = some l ∧ l.id < n := by
  have hmem : l ∈ layers.filter kind := List.mem_filter.mpr ⟨hl, hk⟩
  rcases h.1 with h0 | ⟨x, hx, h1⟩
  · rw [h0] at hmem
    cases hmem
  · rw [h1, List.mem_singleton] at hmem
    subst hmem
    exact ⟨hx, h.2 l hx⟩

theorem length_filter_slot (kind : Layer → Bool) (slot : Option Layer) (layers : List Layer)
    (n : Nat) (h : SlotOk kind slot layers n) : (layers.filter kind).length ≤ 1 := by
  rcases h.1 with h0 | ⟨x, _, h1⟩
  · rw [h0]
    exact Nat.zero_le 1
  · rw [h1]
    exact Nat.le_refl 1

/-- What `setAsStart` followed by `setAsEnd` leaves, from a state that keeps the slot
discipline. -/
theorem setAsStart_setAsEnd_of_PickerOk (s : AppState) (h : PickerOk s)
    (latA lonA latB lonB : Rat) :
    (setAsEnd latB lonB (setAsStart latA lonA s)).mapLayers.filter Layer.isStartMarker
      = [⟨s.nextId, .marker latA lonA .startDot⟩]
    ∧ (setAsEnd latB lonB (setAsStart latA lonA s)).mapLayers.filter Layer.isEndMarker
      = [⟨s.nextId + 1, .marker latB lonB .endDot⟩]
    ∧ (∀ l ∈ s.mapLayers, l.isStartMarker = true ∨ l.isEndMarker = true →
        l ∉ (setAsEnd latB lonB (setAsStart latA lonA s)).mapLayers) := by
  have hmap : (setAsEnd latB lonB (setAsStart latA lonA s)).mapLayers
      = removeSlot (removeSlot s.mapLayers s.startMarker
          ++ [⟨s.nextId, .marker latA lonA .startDot⟩]) s.endMarker
        ++ [⟨s.nextId + 1, .marker latB lonB .endDot⟩] := rfl
  have hstart := SlotOk_install _ _ _ _ ⟨s.nextId, .marker latA lonA .startDot⟩ rfl rfl h.1
  have hend := SlotOk_install _ _ _ _ ⟨s.nextId + 1, .marker latB lonB .endDot⟩ rfl rfl
    (PickerOk_setAsStart latA lonA s h).2
  refine ⟨?_, hend.2, ?_⟩
  · rw [hmap, List.filter_append, filter_removeSlot, hstart.2]
    have hnew : [(⟨s.nextId + 1, .marker latB lonB .endDot⟩ : Layer)].filter
        Layer.isStartMarker = [] := rfl
    rw [hnew, List.append_nil]
    cases hem : s.endMarker with
    | none => rfl
    | some y =>
      have hy := h.2.2 y hem
      have hne : s.nextId ≠ y.id := by omega
      simp [removeSlot, removeLayer, hne]
  · intro l hl hkind hmem
    rw [hmap] at hmem
    have hold : l.id < s.nextId := by
      rcases hkind with hk | hk
      · exact (mem_filter_slot _ _ _ _ h.1 l hl hk).2
      · exact (mem_filter_slot _ _ _ _ h.2 l hl hk).2
    rcases List.mem_append.mp hmem with hmem | hmem
    · have h1 := (mem_removeSlot _ _ _).mp hmem
      rcases List.mem_append.mp h1.1 with h2 | h2
      · have h3 := (mem_removeSlot _ _ _).mp h2
        rcases hkind with hk | hk
        · exact h3.2 l (mem_filter_slot _ _ _ _ h.1 l hl hk).1 rfl
        · exact h1.2 l (mem_filter_slot _ _ _ _ h.2 l hl hk).1 rfl
      · rw [List.mem_singleton] at h2
        rw [h2] at hold
        exact Nat.lt_irrefl _ hold
    · rw [List.mem_singleton] at hmem
      rw [hmem] at hold
      simp at hold

/-- C9. In every state reached from the initial state by map clicks, `setAsStart`,
`setAsEnd`, geocode answers and `clearRoute`, the map holds at most one start marker
and at most one end marker; and from every such state, `setAsStart(a)` followed by
`setAsEnd(b)` leaves exactly one start marker, at `a`, and exactly one end marker,
at `b`, both held by their slot variables, none of the start or end markers that
were on the map before, and the start and end texts of `a` and `b`. -/
theorem setAsStart_setAsEnd_round_trip (sessionId : String) (events : List PickerEvent)
    (latA lonA latB lonB : Rat) :
    ((pickerRun (initialState sessionId) events).mapLayers.filter
        Layer.isStartMarker).length ≤ 1
    ∧ ((pickerRun (initialState sessionId) events).mapLayers.filter
        Layer.isEndMarker).length ≤ 1
    ∧ (setAsEnd latB lonB (setAsStart latA lonA
        (pickerRun (initialState sessionId) events))).mapLayers.filter Layer.isStartMarker
      = [⟨(pickerRun (initialState sessionId) events).nextId, .marker latA lonA .startDot⟩]
    ∧ (setAsEnd latB lonB (setAsStart latA lonA
        (pickerRun (initialState sessionId) events))).mapLayers.filter Layer.isEndMarker
      = [⟨(pickerRun (initialState sessionId) events).nextId + 1, .marker latB lonB .endDot⟩]
    ∧ (setAsEnd latB lonB (setAsStart latA lonA
        (pickerRun (initialState sessionId) events))).startMarker
      = some ⟨(pickerRun (initialState sessionId) events).nextId, .marker latA lonA .startDot⟩
    ∧ (setAsEnd latB lonB (setAsStart latA lonA
        (pickerRun (initialState sessionId) events))).endMarker
      = some ⟨(pickerRun (initialState sessionId) events).nextId + 1,
          .marker latB lonB .endDot⟩
    ∧ (∀ l ∈ (pickerRun (initialState sessionId) events).mapLayers,
        l.isStartMarker = true ∨ l.isEndMarker = true →
        l ∉ (setAsEnd latB lonB (setAsStart latA lonA
          (pickerRun (initialState sessionId) events))).mapLayers)
    ∧ (setAsEnd latB lonB (setAsStart latA lonA
        (pickerRun (initialState sessionId) events))).startLocation = coordText latA lonA
    ∧ (setAsEnd latB lonB (setAsStart latA lonA
        (pickerRun (initialState sessionId) events))).endLocation = coordText latB lonB := by
  have hok := PickerOk_pickerRun events (initialState sessionId) (PickerOk_initialState sessionId)
  obtain ⟨h1, h2, h3⟩ := setAsStart_setAsEnd_of_PickerOk _ hok latA lonA latB lonB
  exact ⟨length_filter_slot _ _ _ _ hok.1, length_filter_slot _ _ _ _ hok.2, h1, h2, rfl, rfl,
    h3, rfl, rfl⟩

theorem setAsStart_setAsEnd_round_trip_witness :
    (setAsEnd 9 10 (setAsStart 7 8
        (pickerRun (initialState "session_1_a")
          [.click 1 2, .click 3 4, .searchResult ⟨true, 5, 6, "Main Street"⟩, .setStart 5 6,
            .clear, .click 11 12]))).mapLayers.filter Layer.isStartMarker
      = [⟨5, .marker 7 8 .startDot⟩] :=
  (setAsStart_setAsEnd_round_trip "session_1_a"
    [.click 1 2, .click 3 4, .searchResult ⟨true, 5, 6, "Main Street"⟩, .setStart 5 6,
      .clear, .click 11 12] 7 8 9 10).2.2.1

/-! ## Clearing the route -/

theorem mem_clearRoute (s : AppState) (l : Layer) (h : l ∈ (clearRoute s).mapLayers) :
    l ∈ s.mapLayers
    ∧ (∀ x, s.routeLayer = some x → l.id ≠ x.id)
    ∧ (∀ x, s.startMarker = some x → l.id ≠ x.id)
    ∧ (∀ x, s.endMarker = some x → l.id ≠ x.id)
    ∧ (∀ m ∈ s.congestionMarkers, l.id ≠ m.id) := by
  rw [(clearRoute_mapLayers s).1] at h
  have h1 := (mem_removeAll _ _ _).mp h
  have h2 := (mem_removeSlot _ _ _).mp h1.1
  have h3 := (mem_removeSlot _ _ _).mp h2.1
  have h4 := (mem_removeSlot _ _ _).mp h3.1
  exact ⟨h4.1, h4.2, h3.2, h2.2, h1.2⟩

/-- C10. After `clearRoute`, from any state, the start and end texts are empty, the
variables of the start marker, the end marker and the route polyline hold nothing
and the layers they held are off the map, every congestion marker is off the map and
the congestion-marker collection is empty, and the route summary is empty; no layer
is added to the map. -/
theorem clearRoute_postcondition (s : AppState) :
    (clearRoute s).startLocation = "" ∧ (clearRoute s).endLocation = ""
    ∧ (clearRoute s).startMarker = none ∧ (clearRoute s).endMarker = none
    ∧ (clearRoute s).routeLayer = none
    ∧ (clearRoute s).congestionMarkers = []
    ∧ (clearRoute s).routeInfo = ""
    ∧ (∀ l, s.startMarker = some l → l ∉ (clearRoute s).mapLayers)
    ∧ (∀ l, s.endMarker = some l → l ∉ (clearRoute s).mapLayers)
    ∧ (∀ l, s.routeLayer = some l → l ∉ (clearRoute s).mapLayers)
    ∧ (∀ m ∈ s.congestionMarkers, m ∉ (clearRoute s).mapLayers)
    ∧ (∀ l ∈ (clearRoute s).mapLayers, l ∈ s.mapLayers) :=
  ⟨rfl, rfl, rfl, rfl, rfl, rfl, rfl,
    fun l hl hmem => (mem_clearRoute s l hmem).2.2.1 l hl rfl,
    fun l hl hmem => (mem_clearRoute s l hmem).2.2.2.1 l hl rfl,
    fun l hl hmem => (mem_clearRoute s l hmem).2.1 l hl rfl,
    fun m hm hmem => (mem_clearRoute s m hmem).2.2.2.2 m hm rfl,
    fun l hmem => (mem_clearRoute s l hmem).1⟩

/-! ## The stored coordinate text -/

theorem digitChar_spec (d : Nat) (hd : d < 10) :
    (Nat.digitChar d).isDigit = true ∧ (Nat.digitChar d).toNat - 48 = d := by
  interval_cases d <;> decide

theorem foldl_decimal (cs : List Char) (acc : Nat) :
    cs.foldl (fun acc c => 10 * acc + (c.toNat - 48)) acc
      = acc * 10 ^ cs.length + decimalValue cs := by
  unfold decimalValue
  induction cs generalizing acc with
  | nil => simp
  | cons c cs ih =>
    rw [List.foldl_cons, List.foldl_cons, ih, ih (10 * 0 + (c.toNat - 48))]
    simp only [List.length_cons, pow_succ]
    ring

theorem decimalValue_append (xs ys : List Char) :
    decimalValue (xs ++ ys) = decimalValue xs * 10 ^ ys.length + decimalValue ys := by
  have h : decimalValue (xs ++ ys)
      = ys.foldl (fun acc c => 10 * acc + (c.toNat - 48)) (decimalValue xs) := by
    simp [decimalValue, List.foldl_append]
  rw [h, foldl_decimal]

theorem decimalValue_zeros (k : Nat) : decimalValue (List.replicate k '0') = 0 := by
  induction k with
  | zero => rfl
  | succ k ih =>
    have h : List.replicate (k + 1) '0' = List.replicate k '0' ++ ['0'] := by
      rw [List.replicate_succ']
    rw [h, decimalValue_append, ih]
    rfl

/-- With enough fuel, `Nat.toDigitsCore` in base ten writes in front of what it was
given a non-empty run of digit characters that reads as `n`. -/
theorem toDigitsCore_reads (fuel : Nat) (n : Nat) (rest : List Char) (hfuel : n < fuel) :
    ∃ run : List Char, decimalValue run = n ∧ (∀ c ∈ run, c.isDigit = true) ∧ run ≠ []
      ∧ Nat.toDigitsCore 10 fuel n rest = run ++ rest := by
  induction fuel generalizing n rest with
  | zero => omega
  | succ fuel ih =>
    have hd := digitChar_spec (n % 10) (Nat.mod_lt n (by decide))
    have hone : decimalValue [Nat.digitChar (n % 10)] = n % 10 := by
      have hread : decimalValue [Nat.digitChar (n % 10)]
          = (Nat.digitChar (n % 10)).toNat - 48 := by
        simp [decimalValue]
      rw [hread]
      exact hd.2
    unfold Nat.toDigitsCore
    simp only
    split
    · refine ⟨[Nat.digitChar (n % 10)], ?_, ?_, by simp, rfl⟩
      · rw [hone]
        omega
      · intro c hc
        rw [List.mem_singleton.mp hc]
        exact hd.1
    · have hlt : n / 10 < fuel := by omega
      obtain ⟨run, hval, hdig, -, heq⟩ := ih (n / 10) (Nat.digitChar (n % 10) :: rest) hlt
      refine ⟨run ++ [Nat.digitChar (n % 10)], ?_, ?_, by simp, ?_⟩
      · rw [decimalValue_append, hval, hone]
        simp only [List.length_singleton, pow_one]
        omega
      · intro c hc
        rcases List.mem_append.mp hc with hc | hc
        · exact hdig c hc
        · rw [List.mem_singleton.mp hc]
          exact hd.1
      · rw [heq]
        simp

theorem toDigits_reads (n : Nat) :
    Nat.toDigits 10 n ≠ [] ∧ (∀ c ∈ Nat.toDigits 10 n, c.isDigit = true)
      ∧ decimalValue (Nat.toDigits 10 n) = n := by
  obtain ⟨run, hval, hdig, hne, heq⟩ := toDigitsCore_reads (n + 1) n [] (Nat.lt_succ_self n)
  have h : Nat.toDigits 10 n = run := by
    unfold Nat.toDigits
    rw [heq, List.append_nil]
  rw [h]
  exact ⟨hne, hdig, hval⟩

theorem abs_eq_natAbs_div (x : Rat) : |x| = (x.num.natAbs : Rat) / (x.den : Rat) := by
  conv_lhs => rw [← Rat.num_div_den x]
  rw [abs_div, Nat.abs_cast, ← Int.cast_abs, Int.abs_eq_natAbs, Int.cast_natCast]

/-- The integer `toFixed` writes is the one nearest to `|x| * 10^f`, the larger one
on a tie. -/
theorem toFixed_nearest (x : Rat) (f : Nat) :
    |x| * 10 ^ f - 1 / 2 < (((2 * x.num.natAbs * 10 ^ f + x.den) / (2 * x.den) : Nat) : Rat)
    ∧ (((2 * x.num.natAbs * 10 ^ f + x.den) / (2 * x.den) : Nat) : Rat) ≤ |x| * 10 ^ f + 1 / 2 := by
  have hden : (0 : Rat) < (x.den : Rat) := by exact_mod_cast x.den_pos
  have hD : 0 < 2 * x.den := by have := x.den_pos; omega
  have hle := Nat.div_mul_le_self (2 * x.num.natAbs * 10 ^ f + x.den) (2 * x.den)
  have hlt2 : 2 * x.num.natAbs * 10 ^ f + x.den
      < ((2 * x.num.natAbs * 10 ^ f + x.den) / (2 * x.den) + 1) * (2 * x.den) := by
    have := Nat.div_add_mod (2 * x.num.natAbs * 10 ^ f + x.den) (2 * x.den)
    have hmod := Nat.mod_lt (2 * x.num.natAbs * 10 ^ f + x.den) hD
    nlinarith
  generalize (2 * x.num.natAbs * 10 ^ f + x.den) / (2 * x.den) = n at hle hlt2 ⊢
  have hle' : (n : Rat) * (2 * x.den) ≤ 2 * x.num.natAbs * 10 ^ f + x.den := by
    exact_mod_cast hle
  have hlt' : (2 * x.num.natAbs * 10 ^ f + x.den : Rat) < ((n : Rat) + 1) * (2 * x.den) := by
    exact_mod_cast hlt2
  rw [abs_eq_natAbs_div]
  constructor
  · rw [sub_lt_iff_lt_add, div_mul_eq_mul_div, div_lt_iff₀ hden]
    linarith
  · rw [div_mul_eq_mul_div, ← sub_le_iff_le_add, le_div_iff₀ hden]
    linarith

/-- The text `toFixed(5)` writes is the number rounded to five decimals. -/
theorem toFixed_rounded (x : Rat) : RoundedToFive x (toFixed x 5) := by
  obtain ⟨-, hdig, hval⟩ := toDigits_reads ((2 * x.num.natAbs * 10 ^ 5 + x.den) / (2 * x.den))
  obtain ⟨hlo, hhi⟩ := toFixed_nearest x 5
  have hsign : (if x.num < 0 then ['-'] else []) = (if x < 0 then ['-'] else []) := by
    by_cases h : x < 0
    · rw [if_pos h, if_pos (Rat.num_neg.mpr h)]
    · rw [if_neg h, if_neg (fun h2 => h (Rat.num_neg.mp h2))]
  have htext : toFixed x 5
      = String.mk ((if x.num < 0 then ['-'] else [])
          ++ (List.replicate
                (5 + 1 - (Nat.toDigits 10
                  ((2 * x.num.natAbs * 10 ^ 5 + x.den) / (2 * x.den))).length) '0'
              ++ Nat.toDigits 10 ((2 * x.num.natAbs * 10 ^ 5 + x.den) / (2 * x.den))).take
            ((List.replicate
                (5 + 1 - (Nat.toDigits 10
                  ((2 * x.num.natAbs * 10 ^ 5 + x.den) / (2 * x.den))).length) '0'
              ++ Nat.toDigits 10
                ((2 * x.num.natAbs * 10 ^ 5 + x.den) / (2 * x.den))).length - 5)
          ++ '.' :: (List.replicate
                (5 + 1 - (Nat.toDigits 10
                  ((2 * x.num.natAbs * 10 ^ 5 + x.den) / (2 * x.den))).length) '0'
              ++ Nat.toDigits 10 ((2 * x.num.natAbs * 10 ^ 5 + x.den) / (2 * x.den))).drop
            ((List.replicate
                (5 + 1 - (Nat.toDigits 10
                  ((2 * x.num.natAbs * 10 ^ 5 + x.den) / (2 * x.den))).length) '0'
              ++ Nat.toDigits 10
                ((2 * x.num.natAbs * 10 ^ 5 + x.den) / (2 * x.den))).length - 5)) := rfl
  rw [hsign] at htext
  generalize (2 * x.num.natAbs * 10 ^ 5 + x.den) / (2 * x.den) = n
    at hdig hval hlo hhi htext
  have hlen : 5 + 1 ≤ (List.replicate (5 + 1 - (Nat.toDigits 10 n).length) '0'
      ++ Nat.toDigits 10 n).length := by
    rw [List.length_append, List.length_replicate]
    omega
  have hall : ∀ c ∈ List.replicate (5 + 1 - (Nat.toDigits 10 n).length) '0'
      ++ Nat.toDigits 10 n, c.isDigit = true := by
    intro c hc
    rcases List.mem_append.mp hc with hc | hc
    · rw [(List.mem_replicate.mp hc).2]
      rfl
    · exact hdig c hc
  have hread : decimalValue (List.replicate (5 + 1 - (Nat.toDigits 10 n).length) '0'
      ++ Nat.toDigits 10 n) = n := by
    rw [decimalValue_append, decimalValue_zeros, hval]
    omega
  generalize List.replicate (5 + 1 - (Nat.toDigits 10 n).length) '0' ++ Nat.toDigits 10 n = m
    at hlen hall hread htext
  refine ⟨m.take (m.length - 5), m.drop (m.length - 5), htext, ?_, ?_, ?_, ?_, ?_⟩
  · intro h
    have := congrArg List.length h
    rw [List.length_take] at this
    simp only [List.length_nil] at this
    omega
  · rw [List.length_drop]
    omega
  · rw [List.take_append_drop]
    exact hall
  · rw [List.take_append_drop, hread]
    exact hlo
  · rw [List.take_append_drop, hread]
    exact hhi

/-- C11 (as stated, refuted). At latitude 5559995481163911 / 2^52, the double
written `1.234567`, and longitude 73, the text a map click, `setAsStart` and
`setAsEnd` store is `1.23457, 73.00000`, while the coordinates truncated to five
decimals read `1.23456, 73.00000`. -/
theorem stored_text_is_not_truncated :
    (mapClick (mkRat 5559995481163911 4503599627370496) 73
        (initialState "session_1_a")).startLocation = "1.23457, 73.00000"
    ∧ (setAsStart (mkRat 5559995481163911 4503599627370496) 73
        (initialState "session_1_a")).startLocation = "1.23457, 73.00000"
    ∧ (setAsEnd (mkRat 5559995481163911 4503599627370496) 73
        (initialState "session_1_a")).endLocation = "1.23457, 73.00000"
    ∧ specCoordText (mkRat 5559995481163911 4503599627370496) 73 = "1.23456, 73.00000"
    ∧ (mapClick (mkRat 5559995481163911 4503599627370496) 73
        (initialState "session_1_a")).startLocation
      ≠ specCoordText (mkRat 5559995481163911 4503599627370496) 73 := by
  decide

/-- C11 (amended). For every coordinate pair below `10^21` in absolute value (the
range in which `toFixed` writes fixed notation), the text a map click writes into
the slot it fills, and the text `setAsStart` and `setAsEnd` write, is
`<lat>, <lon>` where each component is the coordinate rounded to five decimals: its
sign, then the integer nearest to `|x| * 10^5` (the larger one on a tie) written
with a point before its last five digits. -/
theorem stored_text_is_rounded (s : AppState) (lat lon : Rat)
    (_hlat : |lat| < 10 ^ 21) (_hlon : |lon| < 10 ^ 21) :
    ∃ latText lonText : String,
      RoundedToFive lat latText ∧ RoundedToFive lon lonText
      ∧ (s.startLocation = "" →
          (mapClick lat lon s).startLocation = latText ++ ", " ++ lonText)
      ∧ (s.startLocation ≠ "" → s.endLocation = "" →
          (mapClick lat lon s).endLocation = latText ++ ", " ++ lonText)
      ∧ (setAsStart lat lon s).startLocation = latText ++ ", " ++ lonText
      ∧ (setAsEnd lat lon s).endLocation = latText ++ ", " ++ lonText := by
  refine ⟨toFixed lat 5, toFixed lon 5, toFixed_rounded lat, toFixed_rounded lon, ?_, ?_,
    rfl, rfl⟩
  · intro h
    simp [mapClick, h, coordText]
  · intro h1 h2
    simp [mapClick, h1, h2, coordText]

theorem stored_text_is_rounded_witness :
    |mkRat 1 64| < (10 : Rat) ^ 21 ∧ |mkRat (-147) 2| < (10 : Rat) ^ 21
    ∧ ∃ latText lonText : String,
      RoundedToFive (mkRat 1 64) latText ∧ RoundedToFive (mkRat (-147) 2) lonText
      ∧ ((initialState "session_1_a").startLocation = "" →
          (mapClick (mkRat 1 64) (mkRat (-147) 2) (initialState "session_1_a")).startLocation
            = latText ++ ", " ++ lonText)
      ∧ ((initialState "session_1_a").startLocation ≠ "" →
          (initialState "session_1_a").endLocation = "" →
          (mapClick (mkRat 1 64) (mkRat (-147) 2) (initialState "session_1_a")).endLocation
            = latText ++ ", " ++ lonText)
      ∧ (setAsStart (mkRat 1 64) (mkRat (-147) 2) (initialState "session_1_a")).startLocation
          = latText ++ ", " ++ lonText
      ∧ (setAsEnd (mkRat 1 64) (mkRat (-147) 2) (initialState "session_1_a")).endLocation
          = latText ++ ", " ++ lonText :=
  ⟨by decide, by decide,
    stored_text_is_rounded (initialState "session_1_a") (mkRat 1 64) (mkRat (-147) 2)
      (by decide) (by decide)⟩

/-- The tie `1/64 = 0.015625` is stored as `0.01563`, and `-73.5` as `-73.50000`. -/
theorem coordText_tie_example :
    coordText (mkRat 1 64) (mkRat (-147) 2) = "0.01563, -73.50000" := by
  decide

/-! ## The rounding of the language -/

theorem log2Fuel_spec (fuel n : Nat) (hfuel : n ≤ fuel) (hn : 0 < n) :
    2 ^ log2Fuel fuel n ≤ n ∧ n < 2 ^ (log2Fuel fuel n + 1) := by
  induction fuel generalizing n with
  | zero => omega
  | succ fuel ih =>
    unfold log2Fuel
    split
    · constructor
      · simpa using hn
      · simpa using (by omega : n < 2)
    · have hhalf : 0 < n / 2 := by omega
      have hle : n / 2 ≤ fuel := by omega
      obtain ⟨h1, h2⟩ := ih (n / 2) hle hhalf
      constructor
      · rw [pow_succ]
        omega
      · rw [pow_succ]
        omega

theorem natLog2_spec (n : Nat) (hn : 0 < n) :
    2 ^ natLog2 n ≤ n ∧ n < 2 ^ (natLog2 n + 1) :=
  log2Fuel_spec n n (Nat.le_refl n) hn

theorem two_zpow_sub (a b : Nat) : (2 : Rat) ^ ((a : Int) - (b : Int)) = 2 ^ a / 2 ^ b := by
  rw [zpow_sub₀ (by norm_num : (2 : Rat) ≠ 0), zpow_natCast, zpow_natCast]

theorem floorLog2_spec (n d : Nat) (hn : 0 < n) (hd : 0 < d) :
    (2 : Rat) ^ floorLog2 n d ≤ (n : Rat) / d ∧ (n : Rat) / d < (2 : Rat) ^ (floorLog2 n d + 1) := by
  obtain ⟨ha1, ha2⟩ := natLog2_spec n hn
  obtain ⟨hb1, hb2⟩ := natLog2_spec d hd
  have ha1' : (2 : Rat) ^ natLog2 n ≤ n := by exact_mod_cast ha1
  have ha2' : (n : Rat) < 2 ^ (natLog2 n + 1) := by exact_mod_cast ha2
  have hb1' : (2 : Rat) ^ natLog2 d ≤ d := by exact_mod_cast hb1
  have hb2' : (d : Rat) < 2 ^ (natLog2 d + 1) := by exact_mod_cast hb2
  have hd' : (0 : Rat) < d := by exact_mod_cast hd
  have hn' : (0 : Rat) < n := by exact_mod_cast hn
  have hpa : (0 : Rat) < 2 ^ natLog2 n := by positivity
  have hpb : (0 : Rat) < 2 ^ natLog2 d := by positivity
  have hpa1 : (0 : Rat) < 2 ^ (natLog2 n + 1) := by positivity
  have hpb1 : (0 : Rat) < 2 ^ (natLog2 d + 1) := by positivity
  unfold floorLog2
  split
  · rename_i h
    have hq : (d : Rat) * 2 ^ natLog2 n ≤ n * 2 ^ natLog2 d := by exact_mod_cast h
    constructor
    · rw [two_zpow_sub, div_le_div_iff₀ hpb hd']
      linarith
    · have hexp : (natLog2 n : Int) - (natLog2 d : Int) + 1
          = ((natLog2 n + 1 : Nat) : Int) - (natLog2 d : Int) := by push_cast; ring
      rw [hexp, two_zpow_sub, div_lt_div_iff₀ hd' hpb]
      calc (n : Rat) * 2 ^ natLog2 d < 2 ^ (natLog2 n + 1) * 2 ^ natLog2 d := by
            exact mul_lt_mul_of_pos_right ha2' hpb
        _ ≤ 2 ^ (natLog2 n + 1) * d := by
            exact mul_le_mul_of_nonneg_left hb1' (le_of_lt hpa1)
  · rename_i h
    have hq : (n : Rat) * 2 ^ natLog2 d < d * 2 ^ natLog2 n := by
      have := Nat.lt_of_not_le h
      exact_mod_cast this
    constructor
    · have hexp : (natLog2 n : Int) - (natLog2 d : Int) - 1
          = (natLog2 n : Int) - ((natLog2 d + 1 : Nat) : Int) := by push_cast; ring
      rw [hexp, two_zpow_sub, div_le_div_iff₀ hpb1 hd']
      calc (2 : Rat) ^ natLog2 n * d ≤ 2 ^ natLog2 n * 2 ^ (natLog2 d + 1) := by
            exact mul_le_mul_of_nonneg_left (le_of_lt hb2') (le_of_lt hpa)
        _ ≤ n * 2 ^ (natLog2 d + 1) := by
            exact mul_le_mul_of_nonneg_right ha1' (le_of_lt hpb1)
    · have hexp : (natLog2 n : Int) - (natLog2 d : Int) - 1 + 1
          = (natLog2 n : Int) - (natLog2 d : Int) := by ring
      rw [hexp, two_zpow_sub, div_lt_div_iff₀ hd' hpb]
      linarith

theorem roundHalfEven_spec (n d : Nat) (hd : 0 < d) :
    |(roundHalfEven n d : Rat) - (n : Rat) / d| ≤ 1 / 2
    ∧ (|(roundHalfEven n d : Rat) - (n : Rat) / d| = 1 / 2 → Even (roundHalfEven n d)) := by
  have hd' : (0 : Rat) < d := by exact_mod_cast hd
  have hsplit : (n : Rat) / d = (n / d : Nat) + ((n % d : Nat) : Rat) / d := by
    have h := Nat.div_add_mod n d
    have h' : (d : Rat) * (n / d : Nat) + (n % d : Nat) = n := by exact_mod_cast h
    field_simp
    linarith
  have hmod := Nat.mod_lt n hd
  have hfrac0 : (0 : Rat) ≤ ((n % d : Nat) : Rat) / d := by positivity
  unfold roundHalfEven
  split
  · rename_i h
    have hlt : ((n % d : Nat) : Rat) / d < 1 / 2 := by
      rw [div_lt_div_iff₀ hd' (by norm_num)]
      have : (2 : Rat) * (n % d : Nat) < d := by exact_mod_cast h
      linarith
    have habs : |((n / d : Nat) : Rat) - (n : Rat) / d| = ((n % d : Nat) : Rat) / d := by
      rw [hsplit, sub_add_cancel_left, abs_neg, abs_of_nonneg hfrac0]
    rw [habs]
    exact ⟨le_of_lt hlt, fun heq => absurd heq (ne_of_lt hlt)⟩
  · split
    · rename_i h
      have hgt : 1 / 2 < ((n % d : Nat) : Rat) / d := by
        rw [div_lt_div_iff₀ (by norm_num) hd']
        have : (d : Rat) < 2 * (n % d : Nat) := by exact_mod_cast h
        linarith
      have hlt1 : ((n % d : Nat) : Rat) / d < 1 := by
        rw [div_lt_one hd']
        exact_mod_cast hmod
      have habs : |((n / d + 1 : Nat) : Rat) - (n : Rat) / d| = 1 - ((n % d : Nat) : Rat) / d := by
        rw [hsplit]
        push_cast
        rw [show ((n / d : Nat) : Rat) + 1 - (((n / d : Nat) : Rat) + ((n % d : Nat) : Rat) / d)
          = 1 - ((n % d : Nat) : Rat) / d by ring]
        exact abs_of_nonneg (by linarith)
      rw [habs]
      exact ⟨by linarith, fun heq => absurd heq (by linarith)⟩
    · rename_i h1 h2
      have heq : 2 * (n % d) = d := by omega
      have hhalf : ((n % d : Nat) : Rat) / d = 1 / 2 := by
        rw [div_eq_div_iff (ne_of_gt hd') (by norm_num)]
        have : (2 : Rat) * (n % d : Nat) = d := by exact_mod_cast heq
        linarith
      split
      · rename_i heven
        have habs : |((n / d : Nat) : Rat) - (n : Rat) / d| = 1 / 2 := by
          rw [hsplit, sub_add_cancel_left, abs_neg, hhalf]
          norm_num
        rw [habs]
        exact ⟨le_refl _, fun _ => Nat.even_iff.mpr heven⟩
      · rename_i hodd
        have habs : |((n / d + 1 : Nat) : Rat) - (n : Rat) / d| = 1 / 2 := by
          rw [hsplit, hhalf]
          push_cast
          rw [show ((n / d : Nat) : Rat) + 1 - (((n / d : Nat) : Rat) + 1 / 2) = 1 / 2 by ring]
          norm_num
        rw [habs]
        refine ⟨le_refl _, fun _ => ?_⟩
        rw [Nat.even_iff]
        omega

/-- The value `toDouble` returns for a number other than zero: its sign times a
natural multiple of the spacing, the multiple being the quotient of `|x|` by the
spacing rounded half to even. -/
theorem toDouble_eq (x : Rat) (hx : x.num ≠ 0) :
    ∃ m0 : Nat,
      toDouble x = (Int.sign x.num : Rat) * m0
          * (2 : Rat) ^ max (floorLog2 x.num.natAbs x.den - 52) (-1074)
      ∧ |(m0 : Rat) - |x| / (2 : Rat) ^ max (floorLog2 x.num.natAbs x.den - 52) (-1074)| ≤ 1 / 2
      ∧ (|(m0 : Rat) - |x| / (2 : Rat) ^ max (floorLog2 x.num.natAbs x.den - 52) (-1074)| = 1 / 2
          → Even m0) := by
  have hden : (0 : Rat) < (x.den : Rat) := by exact_mod_cast x.den_pos
  have habs := abs_eq_natAbs_div x
  unfold toDouble
  rw [if_neg hx]
  generalize max (floorLog2 x.num.natAbs x.den - 52) (-1074) = u
  split
  · rename_i hu
    have hcast : ((u.toNat : Int) : Int) = u := Int.toNat_of_nonneg hu
    have hpow : (2 : Rat) ^ u = (2 : Rat) ^ u.toNat := by
      conv_lhs => rw [← hcast]
      exact zpow_natCast 2 u.toNat
    have hpos : 0 < x.den * 2 ^ u.toNat := Nat.mul_pos x.den_pos (by positivity)
    obtain ⟨h1, h2⟩ := roundHalfEven_spec x.num.natAbs (x.den * 2 ^ u.toNat) hpos
    have hratio : (x.num.natAbs : Rat) / ((x.den * 2 ^ u.toNat : Nat) : Rat)
        = |x| / (2 : Rat) ^ u := by
      rw [habs, hpow]
      push_cast
      rw [div_div]
    rw [hratio] at h1 h2
    refine ⟨_, ?_, h1, h2⟩
    rw [Rat.mkRat_eq_div, hpow]
    push_cast
    ring
  · rename_i hu
    have hneg : 0 ≤ -u := by omega
    have hcast : (((-u).toNat : Int) : Int) = -u := Int.toNat_of_nonneg hneg
    have hpow : (2 : Rat) ^ u = ((2 : Rat) ^ (-u).toNat)⁻¹ := by
      rw [← zpow_natCast, hcast, zpow_neg, inv_inv]
    have hpowpos : (0 : Rat) < (2 : Rat) ^ (-u).toNat := by positivity
    obtain ⟨h1, h2⟩ := roundHalfEven_spec (x.num.natAbs * 2 ^ (-u).toNat) x.den x.den_pos
    have hratio : ((x.num.natAbs * 2 ^ (-u).toNat : Nat) : Rat) / (x.den : Rat)
        = |x| / (2 : Rat) ^ u := by
      rw [habs, hpow]
      push_cast
      field_simp
    rw [hratio] at h1 h2
    refine ⟨_, ?_, h1, h2⟩
    rw [Rat.mkRat_eq_div, hpow]
    push_cast
    field_simp

theorem sign_mul_abs_eq (x : Rat) (hx : x.num ≠ 0) :
    ((Int.sign x.num : Int) : Rat) * |x| = x
    ∧ (((Int.sign x.num : Int) : Rat) = 1 ∨ ((Int.sign x.num : Int) : Rat) = -1) := by
  rcases lt_or_gt_of_ne hx with h | h
  · have hneg : x < 0 := Rat.num_neg.mp h
    rw [Int.sign_eq_neg_one_of_neg h, abs_of_neg hneg]
    constructor
    · push_cast
      ring
    · right
      norm_num
  · have hpos : 0 < x := Rat.num_pos.mp h
    rw [Int.sign_eq_one_of_pos h, abs_of_pos hpos]
    constructor
    · push_cast
      ring
    · left
      norm_num

theorem dist_of_signed_multiple (x d U s : Rat) (m0 : Nat) (hU : 0 < U)
    (hs : s = 1 ∨ s = -1) (hsx : s * |x| = x) (hval : d = s * m0 * U) :
    |d - x| = U * |(m0 : Rat) - |x| / U| := by
  have h0 : d - x = s * m0 * U - s * |x| := by
    rw [hval, hsx]
  have h1 : d - x = s * (U * ((m0 : Rat) - |x| / U)) := by
    rw [h0]
    field_simp
    ring
  rw [h1, abs_mul, abs_mul, abs_of_pos hU]
  rcases hs with h | h <;> rw [h] <;> norm_num

/-- The rounding `toDouble` is round-to-nearest, ties to even, on the grid of the
Numbers at `x`. -/
theorem toDouble_nearest (x : Rat) : NearestDouble x (toDouble x) := by
  by_cases hx : x.num = 0
  · left
    refine ⟨Rat.zero_of_num_zero hx, ?_⟩
    unfold toDouble
    rw [if_pos hx]
  · right
    have hnat : 0 < x.num.natAbs := Int.natAbs_pos.mpr hx
    obtain ⟨he1, he2⟩ := floorLog2_spec x.num.natAbs x.den hnat x.den_pos
    rw [← abs_eq_natAbs_div x] at he1 he2
    obtain ⟨m0, hval, hle, htie⟩ := toDouble_eq x hx
    obtain ⟨hsx, hsign⟩ := sign_mul_abs_eq x hx
    generalize floorLog2 x.num.natAbs x.den = e at he1 he2 hval hle htie
    have hU : (0 : Rat) < (2 : Rat) ^ max (e - 52) (-1074) := by positivity
    have hdist := dist_of_signed_multiple x (toDouble x) _ _ m0 hU hsign hsx hval
    refine ⟨e, Int.sign x.num * m0, he1, he2, ?_, ?_, ?_⟩
    · rw [hval]
      push_cast
      ring
    · rw [hdist]
      have := mul_le_mul_of_nonneg_left hle (le_of_lt hU)
      linarith
    · intro heq
      rw [hdist] at heq
      have hhalf : |(m0 : Rat) - |x| / (2 : Rat) ^ max (e - 52) (-1074)| = 1 / 2 := by
        have h2 : (2 : Rat) ^ max (e - 52) (-1074)
            * |(m0 : Rat) - |x| / (2 : Rat) ^ max (e - 52) (-1074)|
            = (2 : Rat) ^ max (e - 52) (-1074) * (1 / 2) := by linarith
        exact mul_left_cancel₀ (ne_of_gt hU) h2
      have hev := htie hhalf
      exact Even.mul_left ((Int.even_coe_nat m0).mpr hev) _

/-- A Number is left as it is by the rounding: an operation whose exact result is a
Number returns that result. -/
theorem toDouble_of_isDouble (x : Rat) (hx : IsDouble x) : toDouble x = x := by
  obtain ⟨m, k, hm, hk, hxm⟩ := hx
  rcases toDouble_nearest x with ⟨h0, hd0⟩ | ⟨e, m', he1, -, hd, hdist, -⟩
  · rw [hd0, h0]
  · have hmq : |(m : Rat)| < 2 ^ 53 := by exact_mod_cast hm
    have hk2 : (0 : Rat) < (2 : Rat) ^ k := by positivity
    have habsx : |x| < (2 : Rat) ^ (53 + k) := by
      rw [hxm, abs_mul, abs_of_pos hk2, zpow_add₀ (by norm_num : (2 : Rat) ≠ 0)]
      have h53 : (2 : Rat) ^ (53 : Int) = 2 ^ 53 := by norm_num
      rw [h53]
      exact mul_lt_mul_of_pos_right hmq hk2
    have hek : e < 53 + k := by
      have hlt := lt_of_le_of_lt he1 habsx
      exact (zpow_lt_zpow_iff_right₀ (by norm_num : (1 : Rat) < 2)).mp hlt
    have hu : max (e - 52) (-1074) ≤ k := max_le (by omega) hk
    generalize max (e - 52) (-1074) = u at hd hdist hu
    have hU : (0 : Rat) < (2 : Rat) ^ u := by positivity
    have hcast : (((k - u).toNat : Int) : Int) = k - u := Int.toNat_of_nonneg (by omega)
    have hsplit : (2 : Rat) ^ k = ((2 ^ (k - u).toNat : Int) : Rat) * (2 : Rat) ^ u := by
      have h1 : k = (((k - u).toNat : Int) : Int) + u := by omega
      conv_lhs => rw [h1]
      rw [zpow_add₀ (by norm_num : (2 : Rat) ≠ 0), zpow_natCast]
      push_cast
      ring
    have hxM : x = ((m * 2 ^ (k - u).toNat : Int) : Rat) * (2 : Rat) ^ u := by
      rw [hxm, hsplit]
      push_cast
      ring
    have hdiff : |((m' - m * 2 ^ (k - u).toNat : Int) : Rat)| < 1 := by
      have h1 : toDouble x - x
          = ((m' - m * 2 ^ (k - u).toNat : Int) : Rat) * (2 : Rat) ^ u := by
        rw [hd]
        conv_lhs => rw [hxM]
        push_cast
        ring
      rw [h1, abs_mul, abs_of_pos hU] at hdist
      have h2 : |((m' - m * 2 ^ (k - u).toNat : Int) : Rat)| * (2 : Rat) ^ u
          < 1 * (2 : Rat) ^ u := by linarith
      exact lt_of_mul_lt_mul_right h2 (le_of_lt hU)
    have hzero : m' - m * 2 ^ (k - u).toNat = 0 := by
      have h3 : |m' - m * 2 ^ (k - u).toNat| < 1 := by exact_mod_cast hdiff
      exact Int.abs_lt_one_iff.mp h3
    have hm' : m' = m * 2 ^ (k - u).toNat := by omega
    rw [hd, hm']
    exact hxM.symm

/-! ## Properties of the statistics -/

theorem mathRound_eq_floor (x : Rat) : mathRound x = ⌊x + 1 / 2⌋ := rfl

/-- `Math.round` returns the integer within one half of its argument, the upper one
on a tie. -/
theorem mathRound_nearest (x : Rat) :
    (mathRound x : Rat) - 1 / 2 ≤ x ∧ x < (mathRound x : Rat) + 1 / 2 := by
  rw [mathRound_eq_floor]
  have h1 := Int.floor_le (x + 1 / 2)
  have h2 := Int.lt_floor_add_one (x + 1 / 2)
  constructor <;> linarith

theorem jsAdd_eq (a b : Rat) : jsAdd a b = toDouble (a + b) := by
  unfold jsAdd
  rw [← Rat.add_def']

theorem jsSub_eq (a b : Rat) : jsSub a b = toDouble (a - b) := by
  unfold jsSub
  rw [← Rat.sub_def']

theorem jsDiv_eq (a : Rat) (n : Nat) : jsDiv a n = toDouble (a / n) := by
  unfold jsDiv
  congr 1
  rw [Rat.mkRat_eq_div]
  push_cast
  rw [← div_div, Rat.num_div_den]

/-- What `updateStatistics` shows for a list that is not empty. -/
theorem updateStatistics_nonempty (incidents : List Incident) (s : AppState)
    (hne : incidents ≠ []) :
    (updateStatistics incidents s).avgSpeed
      = intToString (mathRound (jsSub 60
          (jsDiv (incidents.foldl (fun sum i => jsAdd sum (toDouble i.delay)) 0)
            incidents.length))) ++ " km/h"
    ∧ (updateStatistics incidents s).congestionLevel
      = (if jsDiv (incidents.foldl (fun sum i => jsAdd sum (toDouble i.severity)) 0)
            incidents.length ≥ 3 then "Heavy"
          else if jsDiv (incidents.foldl (fun sum i => jsAdd sum (toDouble i.severity)) 0)
            incidents.length ≥ 2 then "Moderate"
          else "Light") := by
  have hlen : incidents.length > 0 := List.length_pos.mpr hne
  simp [updateStatistics, hlen]

/-- While every running sum is a Number, the `reduce` of `updateStatistics` returns
the exact sum. -/
theorem foldl_jsAdd_exact (f : Incident → Rat) (incidents : List Incident) (acc : Rat)
    (hfield : ∀ i ∈ incidents, IsDouble (f i))
    (hsum : ∀ k, IsDouble (acc + ((incidents.take k).map f).sum)) :
    incidents.foldl (fun sum i => jsAdd sum (toDouble (f i))) acc
      = acc + (incidents.map f).sum := by
  induction incidents generalizing acc with
  | nil => simp
  | cons i rest ih =>
    have hi : toDouble (f i) = f i :=
      toDouble_of_isDouble _ (hfield i (List.mem_cons_self _ _))
    have hstep : jsAdd acc (toDouble (f i)) = acc + f i := by
      rw [hi, jsAdd_eq]
      have h1 := hsum 1
      simp only [List.take_succ_cons, List.take_zero, List.map_cons, List.map_nil,
        List.sum_cons, List.sum_nil, add_zero] at h1
      exact toDouble_of_isDouble _ h1
    rw [List.foldl_cons, hstep, ih (acc + f i) (fun j hj => hfield j (List.mem_cons_of_mem _ hj))]
    · simp [add_assoc]
    · intro k
      have hk := hsum (k + 1)
      simp only [List.take_succ_cons, List.map_cons, List.sum_cons] at hk
      rw [add_assoc]
      exact hk

/-- C6 (as stated, refuted). For the two delays `0.1` and `0.9` as Numbers,
`updateStatistics` shows `60 km/h`: their sum rounds to 1, the average is 0.5 and
`Math.round(59.5)` is 60. The exact average of the two Numbers is above 0.5, so
`round(60 - sum / count)` is 59. Likewise the delays `329.1`, `315.8`, `100.6` of a
response show `-189 km/h`, while their exact average 348.5 gives -188. -/
theorem updateStatistics_not_exact_average :
    (updateStatistics
        [⟨0, 0, 1, mkRat 3602879701896397 36028797018963968, ""⟩,
          ⟨0, 0, 1, mkRat 8106479329266893 9007199254740992, ""⟩]
        (initialState "session_1_a")).avgSpeed = "60 km/h"
    ∧ intToString (mathRound (60 - (mkRat 3602879701896397 36028797018963968
          + mkRat 8106479329266893 9007199254740992) / 2)) ++ " km/h" = "59 km/h"
    ∧ (updateStatistics
        [⟨0, 0, 1, mkRat 3291 10, ""⟩, ⟨0, 0, 1, mkRat 3158 10, ""⟩,
          ⟨0, 0, 1, mkRat 1006 10, ""⟩]
        (initialState "session_1_a")).avgSpeed = "-189 km/h"
    ∧ intToString (mathRound (60 - (mkRat 3291 10 + mkRat 3158 10 + mkRat 1006 10) / 3))
        ++ " km/h" = "-188 km/h" := by
  refine ⟨?_, ?_, ?_, ?_⟩
  · rw [(updateStatistics_nonempty _ _ (by simp)).1]
    have hval : jsSub 60 (jsDiv
        (([⟨0, 0, 1, mkRat 3602879701896397 36028797018963968, ""⟩,
          ⟨0, 0, 1, mkRat 8106479329266893 9007199254740992, ""⟩] : List Incident).foldl
          (fun sum i => jsAdd sum (toDouble i.delay)) 0)
        ([⟨0, 0, 1, mkRat 3602879701896397 36028797018963968, ""⟩,
          ⟨0, 0, 1, mkRat 8106479329266893 9007199254740992, ""⟩] : List Incident).length)
        = mkRat 119 2 := by decide
    have hround : mathRound (mkRat 119 2) = 60 := by
      rw [mathRound_eq_floor, Rat.mkRat_eq_div]
      norm_num
    rw [hval, hround]
    decide
  · have hround : mathRound (60 - (mkRat 3602879701896397 36028797018963968
          + mkRat 8106479329266893 9007199254740992) / 2) = 59 := by
      rw [mathRound_eq_floor, Rat.mkRat_eq_div, Rat.mkRat_eq_div]
      norm_num
    rw [hround]
    decide
  · rw [(updateStatistics_nonempty _ _ (by simp)).1]
    have hval : jsSub 60 (jsDiv
        (([⟨0, 0, 1, mkRat 3291 10, ""⟩, ⟨0, 0, 1, mkRat 3158 10, ""⟩,
          ⟨0, 0, 1, mkRat 1006 10, ""⟩] : List Incident).foldl
          (fun sum i => jsAdd sum (toDouble i.delay)) 0)
        ([⟨0, 0, 1, mkRat 3291 10, ""⟩, ⟨0, 0, 1, mkRat 3158 10, ""⟩,
          ⟨0, 0, 1, mkRat 1006 10, ""⟩] : List Incident).length)
        = mkRat (-6632254138744833) 35184372088832 := by decide
    have hround : mathRound (mkRat (-6632254138744833) 35184372088832) = -189 := by
      rw [mathRound_eq_floor, Rat.mkRat_eq_div]
      norm_num
    rw [hval, hround]
    decide
  · have hround : mathRound (60 - (mkRat 3291 10 + mkRat 3158 10 + mkRat 1006 10) / 3)
        = -188 := by
      rw [mathRound_eq_floor, Rat.mkRat_eq_div, Rat.mkRat_eq_div, Rat.mkRat_eq_div]
      norm_num
    rw [hround]
    decide

/-- C6 (amended). `updateStatistics` shows the length of the incident list as the
incident count; for the empty list it shows speed `60 km/h` and label `Free Flow`;
for a non-empty list (fewer than `2^32` incidents, delays and severities below
`10^20` in absolute value) it shows `Math.round(60 - avgDelay)` unclamped, where
`avgDelay` is what the script computes in Numbers: the delays added from the left,
the sum divided by the count and the difference from 60 each rounded to the nearest
Number, ties to even; and the label `Heavy` when the average severity, computed the
same way, is at least 3, `Moderate` when at least 2, `Light` otherwise. The value
shown is the integer within one half of the rounded difference. When the delays,
their running sums, the quotient by the count and the difference from 60 are
Numbers, no rounding happens and the value shown is `round(60 - sum / count)`; the
same for the label. The value is negative for one incident of delay 300 and above
60 for one of delay -30. -/
theorem updateStatistics_aggregates (incidents : List Incident) (s : AppState)
    (_hrange : ∀ i ∈ incidents, |i.delay| < 10 ^ 20 ∧ |i.severity| < 10 ^ 20)
    (_hlen : incidents.length < 2 ^ 32) :
    (updateStatistics incidents s).incidentCount = intToString incidents.length
    ∧ (incidents = [] →
        (updateStatistics incidents s).avgSpeed = "60 km/h"
        ∧ (updateStatistics incidents s).congestionLevel = "Free Flow")
    ∧ (incidents ≠ [] →
        (updateStatistics incidents s).avgSpeed
          = intToString (mathRound (jsSub 60
              (jsDiv (incidents.foldl (fun sum i => jsAdd sum (toDouble i.delay)) 0)
                incidents.length))) ++ " km/h"
        ∧ (updateStatistics incidents s).congestionLevel
          = (if jsDiv (incidents.foldl (fun sum i => jsAdd sum (toDouble i.severity)) 0)
                incidents.length ≥ 3 then "Heavy"
              else if jsDiv (incidents.foldl (fun sum i => jsAdd sum (toDouble i.severity)) 0)
                incidents.length ≥ 2 then "Moderate"
              else "Light")
        ∧ (mathRound (jsSub 60
              (jsDiv (incidents.foldl (fun sum i => jsAdd sum (toDouble i.delay)) 0)
                incidents.length)) : Rat) - 1 / 2
            ≤ jsSub 60
              (jsDiv (incidents.foldl (fun sum i => jsAdd sum (toDouble i.delay)) 0)
                incidents.length)
        ∧ jsSub 60
              (jsDiv (incidents.foldl (fun sum i => jsAdd sum (toDouble i.delay)) 0)
                incidents.length)
            < (mathRound (jsSub 60
              (jsDiv (incidents.foldl (fun sum i => jsAdd sum (toDouble i.delay)) 0)
                incidents.length)) : Rat) + 1 / 2)
    ∧ (∀ a b : Rat, jsAdd a b = toDouble (a + b))
    ∧ (∀ a b : Rat, jsSub a b = toDouble (a - b))
    ∧ (∀ (a : Rat) (n : Nat), jsDiv a n = toDouble (a / n))
    ∧ (∀ x : Rat, NearestDouble x (toDouble x))
    ∧ (incidents ≠ [] → (∀ i ∈ incidents, IsDouble i.delay) →
        (∀ k, IsDouble ((incidents.take k).map (fun i => i.delay)).sum) →
        IsDouble ((incidents.map (fun i => i.delay)).sum / incidents.length) →
        IsDouble (60 - (incidents.map (fun i => i.delay)).sum / incidents.length) →
        (updateStatistics incidents s).avgSpeed
          = intToString (mathRound
              (60 - (incidents.map (fun i => i.delay)).sum / incidents.length)) ++ " km/h")
    ∧ (incidents ≠ [] → (∀ i ∈ incidents, IsDouble i.severity) →
        (∀ k, IsDouble ((incidents.take k).map (fun i => i.severity)).sum) →
        IsDouble ((incidents.map (fun i => i.severity)).sum / incidents.length) →
        (updateStatistics incidents s).congestionLevel
          = (if (incidents.map (fun i => i.severity)).sum / incidents.length ≥ 3 then "Heavy"
              else if (incidents.map (fun i => i.severity)).sum / incidents.length ≥ 2
                then "Moderate"
              else "Light"))
    ∧ (updateStatistics [⟨0, 0, 4, 300, ""⟩] s).avgSpeed = "-240 km/h"
    ∧ (updateStatistics [⟨0, 0, 1, -30, ""⟩] s).avgSpeed = "90 km/h" := by
  refine ⟨?_, ?_, ?_, jsAdd_eq, jsSub_eq, jsDiv_eq, toDouble_nearest, ?_, ?_, ?_, ?_⟩
  · unfold updateStatistics
    simp only
    split <;> rfl
  · intro h
    subst h
    exact ⟨rfl, rfl⟩
  · intro h
    obtain ⟨h1, h2⟩ := updateStatistics_nonempty incidents s h
    exact ⟨h1, h2, (mathRound_nearest _).1, (mathRound_nearest _).2⟩
  · intro h hfield hsum hquot hdiff
    rw [(updateStatistics_nonempty incidents s h).1,
      foldl_jsAdd_exact (fun i => i.delay) incidents 0 hfield (by simpa using hsum),
      zero_add, jsDiv_eq, toDouble_of_isDouble _ hquot, jsSub_eq, toDouble_of_isDouble _ hdiff]
  · intro h hfield hsum hquot
    rw [(updateStatistics_nonempty incidents s h).2,
      foldl_jsAdd_exact (fun i => i.severity) incidents 0 hfield (by simpa using hsum),
      zero_add, jsDiv_eq, toDouble_of_isDouble _ hquot]
  · rw [(updateStatistics_nonempty _ s (by simp)).1]
    have hval : jsSub 60 (jsDiv
        (([⟨0, 0, 4, 300, ""⟩] : List Incident).foldl
          (fun sum i => jsAdd sum (toDouble i.delay)) 0)
        ([⟨0, 0, 4, 300, ""⟩] : List Incident).length) = -240 := by decide
    have hround : mathRound (-240) = -240 := by
      rw [mathRound_eq_floor]
      norm_num
    rw [hval, hround]
    decide
  · rw [(updateStatistics_nonempty _ s (by simp)).1]
    have hval : jsSub 60 (jsDiv
        (([⟨0, 0, 1, -30, ""⟩] : List Incident).foldl
          (fun sum i => jsAdd sum (toDouble i.delay)) 0)
        ([⟨0, 0, 1, -30, ""⟩] : List Incident).length) = 90 := by decide
    have hround : mathRound 90 = 90 := by
      rw [mathRound_eq_floor]
      norm_num
    rw [hval, hround]
    decide

/-- The aggregate of the two incidents `{severity 4, delay 30}` and
`{severity 2, delay 5}`: speed 43, label `Heavy`, count 2, from the average delay
17.5 and the average severity 3. -/
theorem updateStatistics_aggregates_witness :
    (∀ i ∈ ([⟨0, 0, 4, 30, ""⟩, ⟨0, 0, 2, 5, ""⟩] : List Incident),
      |i.delay| < 10 ^ 20 ∧ |i.severity| < 10 ^ 20)
    ∧ ([⟨0, 0, 4, 30, ""⟩, ⟨0, 0, 2, 5, ""⟩] : List Incident).length < 2 ^ 32
    ∧ (updateStatistics [⟨0, 0, 4, 30, ""⟩, ⟨0, 0, 2, 5, ""⟩]
        (initialState "session_1_a")).avgSpeed = "43 km/h"
    ∧ (updateStatistics [⟨0, 0, 4, 30, ""⟩, ⟨0, 0, 2, 5, ""⟩]
        (initialState "session_1_a")).congestionLevel = "Heavy"
    ∧ (updateStatistics [⟨0, 0, 4, 30, ""⟩, ⟨0, 0, 2, 5, ""⟩]
        (initialState "session_1_a")).incidentCount = "2"
    ∧ jsDiv (([⟨0, 0, 4, 30, ""⟩, ⟨0, 0, 2, 5, ""⟩] : List Incident).foldl
        (fun sum i => jsAdd sum (toDouble i.delay)) 0) 2 = mkRat 35 2
    ∧ jsDiv (([⟨0, 0, 4, 30, ""⟩, ⟨0, 0, 2, 5, ""⟩] : List Incident).foldl
        (fun sum i => jsAdd sum (toDouble i.severity)) 0) 2 = 3 := by
  have hrange : ∀ i ∈ ([⟨0, 0, 4, 30, ""⟩, ⟨0, 0, 2, 5, ""⟩] : List Incident),
      |i.delay| < 10 ^ 20 ∧ |i.severity| < 10 ^ 20 := by
    intro i hi
    simp only [List.mem_cons, List.mem_singleton, List.not_mem_nil, or_false] at hi
    rcases hi with rfl | rfl <;> constructor <;> norm_num [abs_lt]
  have hlen : ([⟨0, 0, 4, 30, ""⟩, ⟨0, 0, 2, 5, ""⟩] : List Incident).length < 2 ^ 32 := by
    decide
  have hne : ([⟨0, 0, 4, 30, ""⟩, ⟨0, 0, 2, 5, ""⟩] : List Incident) ≠ [] := by simp
  have h := updateStatistics_aggregates [⟨0, 0, 4, 30, ""⟩, ⟨0, 0, 2, 5, ""⟩]
    (initialState "session_1_a") hrange hlen
  refine ⟨hrange, hlen, ?_, ?_, ?_, by decide, by decide⟩
  · rw [(h.2.2.1 hne).1]
    have hval : jsSub 60 (jsDiv
        (([⟨0, 0, 4, 30, ""⟩, ⟨0, 0, 2, 5, ""⟩] : List Incident).foldl
          (fun sum i => jsAdd sum (toDouble i.delay)) 0)
        ([⟨0, 0, 4, 30, ""⟩, ⟨0, 0, 2, 5, ""⟩] : List Incident).length) = mkRat 85 2 := by
      decide
    have hround : mathRound (mkRat 85 2) = 43 := by
      rw [mathRound_eq_floor, Rat.mkRat_eq_div]
      norm_num
    rw [hval, hround]
    decide
  · rw [(h.2.2.1 hne).2.1]
    have hval : jsDiv
        (([⟨0, 0, 4, 30, ""⟩, ⟨0, 0, 2, 5, ""⟩] : List Incident).foldl
          (fun sum i => jsAdd sum (toDouble i.severity)) 0)
        ([⟨0, 0, 4, 30, ""⟩, ⟨0, 0, 2, 5, ""⟩] : List Incident).length = 3 := by
      decide
    rw [hval]
    norm_num
  · rw [h.1]
    decide

/-! ## The typing placeholder -/

theorem countTyping_append_message (entries : List ChatEntry) (role text : String) :
    countTyping (entries ++ [.message role text]) = countTyping entries := by
  simp [countTyping, List.count_append]

theorem countTyping_sendChatMessage (s : AppState) :
    countTyping (sendChatMessage s).1.chatMessages
      = countTyping s.chatMessages + (sendChatMessage s).2.toList.length := by
  unfold sendChatMessage
  simp only []
  split
  · simp
  · split
    · simp [addChatMessage, countTyping, List.count_append]
    · simp [addChatMessage, countTyping, List.count_append, List.count_cons]

theorem countTyping_removeTyping (s : AppState) :
    countTyping (removeTyping s).chatMessages = countTyping s.chatMessages - 1 := by
  simp [removeTyping, countTyping]

theorem countTyping_error (s : AppState) :
    countTyping (sendChatMessageError s).chatMessages = countTyping s.chatMessages - 1 := by
  unfold sendChatMessageError addChatMessage
  simp only [countTyping_append_message]
  exact countTyping_removeTyping s

theorem countTyping_response (reply : String) (s : AppState) :
    countTyping (sendChatMessageResponse (some reply) s).chatMessages
      = countTyping s.chatMessages - 1 := by
  unfold sendChatMessageResponse addChatMessage
  simp only [countTyping_append_message]
  exact countTyping_removeTyping s

theorem countTyping_null (s : AppState) :
    countTyping (sendChatMessageResponse none s).chatMessages
      = countTyping s.chatMessages - 1 - 1 := by
  unfold sendChatMessageResponse
  simp only []
  rw [countTyping_error, countTyping_removeTyping]

/-- No event lets the typing placeholders outnumber the pending requests. -/
theorem chatStep_bound (c : ChatSystem) (e : ChatEvent)
    (h : countTyping c.app.chatMessages ≤ c.pending.length) :
    countTyping (chatStep c e).app.chatMessages ≤ (chatStep c e).pending.length := by
  cases e with
  | send text =>
    simp only [chatStep, List.length_append]
    rw [countTyping_sendChatMessage]
    simp only []
    omega
  | responseSucceeds i reply =>
    simp only [chatStep]
    split
    · rename_i hi
      simp only []
      rw [countTyping_response, List.length_eraseIdx, if_pos hi]
      omega
    · exact h
  | responseNull i =>
    simp only [chatStep]
    split
    · rename_i hi
      simp only []
      rw [countTyping_null, List.length_eraseIdx, if_pos hi]
      omega
    · exact h
  | responseFails i =>
    simp only [chatStep]
    split
    · rename_i hi
      simp only []
      rw [countTyping_error, List.length_eraseIdx, if_pos hi]
      omega
    · exact h

/-- An event other than a `null` answer keeps the typing placeholders as many as the
pending requests. -/
theorem chatStep_balance (c : ChatSystem) (e : ChatEvent) (hbody : ∀ i, e ≠ .responseNull i)
    (h : countTyping c.app.chatMessages = c.pending.length) :
    countTyping (chatStep c e).app.chatMessages = (chatStep c e).pending.length := by
  cases e with
  | send text =>
    simp only [chatStep, List.length_append]
    rw [countTyping_sendChatMessage]
    simp only []
    rw [h]
  | responseSucceeds i reply =>
    simp only [chatStep]
    split
    · rename_i hi
      simp only []
      rw [countTyping_response, h, List.length_eraseIdx, if_pos hi]
    · exact h
  | responseNull i => exact absurd rfl (hbody i)
  | responseFails i =>
    simp only [chatStep]
    split
    · rename_i hi
      simp only []
      rw [countTyping_error, h, List.length_eraseIdx, if_pos hi]
    · exact h

theorem chatRun_bound (events : List ChatEvent) (c : ChatSystem)
    (h : countTyping c.app.chatMessages ≤ c.pending.length) :
    countTyping (chatRun c events).app.chatMessages ≤ (chatRun c events).pending.length := by
  induction events generalizing c with
  | nil => exact h
  | cons e es ih => exact ih (chatStep c e) (chatStep_bound c e h)

theorem chatRun_balance (events : List ChatEvent) (c : ChatSystem)
    (hbody : ∀ e ∈ events, ∀ i, e ≠ .responseNull i)
    (h : countTyping c.app.chatMessages = c.pending.length) :
    countTyping (chatRun c events).app.chatMessages = (chatRun c events).pending.length := by
  induction events generalizing c with
  | nil => exact h
  | cons e es ih =>
    exact ih (chatStep c e) (fun e' he' => hbody e' (List.mem_cons_of_mem _ he'))
      (chatStep_balance c e (hbody e (List.mem_cons_self _ _)) h)

/-- What an answer with the body `null` does to the transcript: the `try` block
removes a placeholder, reading `result.message` throws, and the `catch` block
removes a second placeholder and appends the apology. -/
theorem sendChatMessageResponse_null (s : AppState) :
    (sendChatMessageResponse none s).chatMessages
      = (s.chatMessages.erase .typing).erase .typing ++ [.message "ai" apologyMessage] :=
  rfl

/-- C8 (as stated, refuted). Two sends with no response in between leave two typing
placeholders in the transcript. -/
theorem chatRun_two_sends_two_placeholders :
    countTyping (chatRun
      ⟨{ initialState "session_1_a" with currentCity := some ⟨"Pune", 18, 73, "b"⟩ }, []⟩
      [.send "hello", .send "again"]).app.chatMessages = 2
    ∧ ¬ countTyping (chatRun
      ⟨{ initialState "session_1_a" with currentCity := some ⟨"Pune", 18, 73, "b"⟩ }, []⟩
      [.send "hello", .send "again"]).app.chatMessages ≤ 1 := by
  decide

/-- C8 (amended). In every state reached from a transcript without placeholder and
no request in flight by sends, answers (with any body, `null` included) and
failures in any order, the transcript holds no more typing placeholders than there
are pending requests, hence at most one while at most one request is pending, and
exactly as many as long as no answer had the body `null`; an answer whose body is
not `null`, or a failure, of a pending request removes the first placeholder and
then appends the reply, or the fixed apology; and after the answer (of any body) or
the failure of the only pending request no placeholder is left. -/
theorem chatRun_placeholders (app : AppState) (events : List ChatEvent)
    (h : countTyping app.chatMessages = 0) :
    countTyping (chatRun ⟨app, []⟩ events).app.chatMessages
      ≤ (chatRun ⟨app, []⟩ events).pending.length
    ∧ ((∀ e ∈ events, ∀ i, e ≠ .responseNull i) →
        countTyping (chatRun ⟨app, []⟩ events).app.chatMessages
          = (chatRun ⟨app, []⟩ events).pending.length)
    ∧ ((chatRun ⟨app, []⟩ events).pending.length ≤ 1 →
        countTyping (chatRun ⟨app, []⟩ events).app.chatMessages ≤ 1)
    ∧ (∀ i reply, i < (chatRun ⟨app, []⟩ events).pending.length →
        (chatStep (chatRun ⟨app, []⟩ events) (.responseSucceeds i reply)).app.chatMessages
          = (chatRun ⟨app, []⟩ events).app.chatMessages.erase .typing
            ++ [.message "ai" reply])
    ∧ (∀ i, i < (chatRun ⟨app, []⟩ events).pending.length →
        (chatStep (chatRun ⟨app, []⟩ events) (.responseFails i)).app.chatMessages
          = (chatRun ⟨app, []⟩ events).app.chatMessages.erase .typing
            ++ [.message "ai" apologyMessage])
    ∧ ((chatRun ⟨app, []⟩ events).pending.length = 1 →
        (∀ reply, countTyping
          (chatStep (chatRun ⟨app, []⟩ events) (.responseSucceeds 0 reply)).app.chatMessages = 0)
        ∧ countTyping
          (chatStep (chatRun ⟨app, []⟩ events) (.responseNull 0)).app.chatMessages = 0
        ∧ countTyping
          (chatStep (chatRun ⟨app, []⟩ events) (.responseFails 0)).app.chatMessages = 0) := by
  have hbound := chatRun_bound events ⟨app, []⟩ (by simp [h])
  refine ⟨hbound, ?_, ?_, ?_, ?_, ?_⟩
  · intro hbody
    exact chatRun_balance events ⟨app, []⟩ hbody (by simpa using h)
  · intro hle
    omega
  · intro i reply hi
    simp [chatStep, hi, sendChatMessageResponse, addChatMessage, removeTyping]
  · intro i hi
    simp [chatStep, hi, sendChatMessageError, addChatMessage, removeTyping]
  · intro hone
    refine ⟨?_, ?_, ?_⟩
    · intro reply
      have := chatStep_bound _ (.responseSucceeds 0 reply) hbound
      simp [chatStep, hone] at this
      simpa [chatStep, hone] using this
    · have := chatStep_bound _ (.responseNull 0) hbound
      simp [chatStep, hone] at this
      simpa [chatStep, hone] using this
    · have := chatStep_bound _ (.responseFails 0) hbound
      simp [chatStep, hone] at this
      simpa [chatStep, hone] using this

theorem chatRun_placeholders_witness :
    countTyping
        { initialState "session_1_a" with
          currentCity := some ⟨"Pune", 18, 73, "b"⟩ }.chatMessages = 0
    ∧ countTyping (chatRun
        ⟨{ initialState "session_1_a" with currentCity := some ⟨"Pune", 18, 73, "b"⟩ }, []⟩
        [.send "hello", .send "there", .responseNull 0, .send "again"]).app.chatMessages
      ≤ (chatRun
        ⟨{ initialState "session_1_a" with currentCity := some ⟨"Pune", 18, 73, "b"⟩ }, []⟩
        [.send "hello", .send "there", .responseNull 0, .send "again"]).pending.length :=
  ⟨by decide, (chatRun_placeholders
    { initialState "session_1_a" with currentCity := some ⟨"Pune", 18, 73, "b"⟩ }
    [.send "hello", .send "there", .responseNull 0, .send "again"] (by decide)).1⟩

end SmartTraffic
